import Mathlib

/-!
# Sprint Pilot — formal model and verification

A shallow embedding, in Lean 4, of the core sync pipeline of the
`sprint-pilot` repository: fetch of work items from the ClickUp-style
tracker, per-item LLM analysis with a fixed fallback, batch
orchestration in groups of five, deterministic priority sorting and
markdown rendering, and signed, retried webhook delivery.

External effects (the HTTP fetch, the generative-model call, the
webhook POST, the wall clock) are modelled as explicit oracle
parameters: a pure function supplies each outbound call's outcome, and
instrumentation fields record how many calls were made, so that claims
about call counts and skipped stages are statable.  Machine-level
hashing (`createHmac('sha256', …)` from the Node standard library) is
embedded as a faithful executable implementation of SHA-256 and HMAC
over byte lists.
-/

set_option maxRecDepth 10000

namespace SprintPilot

/-! ## Data model (src/types/index.ts) -/

/-- `complexityTag: z.enum(['fix', 'feature'])`. -/
inductive Complexity where
  | fix
  | feature
deriving DecidableEq, Repr

/-- The `status` object of a ClickUp task. -/
structure TaskStatus where
  status : String
  color : Option String := none
deriving DecidableEq, Repr

/-- One entry of the `assignees` array. -/
structure Assignee where
  id : Int
  username : String
  email : Option String := none
deriving DecidableEq, Repr

/-- The `priority` object of a ClickUp task (`{ id, priority, color }`). -/
structure TaskPriority where
  id : String
  priority : String
  color : String
deriving DecidableEq, Repr

/-- One entry of the `tags` array. -/
structure TaskTag where
  name : String
  tag_fg : Option String := none
  tag_bg : Option String := none
deriving DecidableEq, Repr

/-- `ClickUpTaskSchema`.  `z.array(z.any())` custom fields are opaque. -/
structure ClickUpTask where
  id : String
  name : String
  description : Option String := none
  status : TaskStatus
  assignees : Option (List Assignee) := none
  priority : Option TaskPriority := none
  tags : Option (List TaskTag) := none
  due_date : Option String := none
  custom_fields : Option (List Unit) := none
  url : Option String := none
deriving DecidableEq, Repr

/-- `TicketAnalysisSchema`.  The quality score is a JSON number
constrained to `[1,5]`; it is embedded as an integer (the generative
model is schema-constrained to produce one). -/
structure TicketAnalysis where
  qualityScore : Int
  qualityGaps : List String
  affectedFiles : List String
  complexityTag : Complexity
  suggestedApproach : String
deriving DecidableEq, Repr

/-- `AnalyzedTicketSchema`: a task paired with its analysis. -/
structure AnalyzedTicket where
  ticket : ClickUpTask
  analysis : TicketAnalysis
deriving DecidableEq, Repr

/-- `RouteInfoSchema`. -/
structure RouteInfo where
  path : String
  files : List String
  exports : Option (List String) := none
deriving DecidableEq, Repr

/-- `CodebaseMapSchema`. -/
structure CodebaseMap where
  routes : List RouteInfo
  components : List String
  actions : List String
  scannedAt : Option String := none
deriving DecidableEq, Repr

/-- `SprintMetadataSchema`. -/
structure SprintMetadata where
  syncTimestamp : String
  ticketCount : Nat
  listId : String
  listName : Option String := none
deriving DecidableEq, Repr

/-! ## Document formatter (src/tools/sprint-formatter.ts)

`PRIORITY_ORDER` is an object literal used as a finite string-keyed
map; `getPriorityOrder` lowercases its argument before the lookup and
defaults to 5 for an absent (or empty, which is falsy in JS) string
and for a key missing from the map. -/

/-- The `PRIORITY_ORDER` record literal. -/
def PRIORITY_ORDER : List (String × Nat) :=
  [("urgent", 1), ("high", 2), ("normal", 3), ("low", 4)]

/-- JS `String.prototype.toLowerCase` restricted to the basic latin
range, applied character-wise (the map keys are ASCII). -/
def jsToLower (s : String) : String :=
  String.mk (s.data.map Char.toLower)

/-- A JS bracket read on the `PRIORITY_ORDER` object literal can hit an
own data property (a number), a member of `Object.prototype` reached
through the prototype chain (a function, or `Object.prototype` itself
for the `__proto__` accessor), or `undefined`.  Two inherited reads
with the same key return the same object, and reads with different
keys return different objects, so strict (in)equality on these values
is (in)equality of this representation. -/
inductive JsProp where
  | num (n : Nat)
  | inherited (name : String)
  | undef
deriving DecidableEq, Repr

/-- Whether a looked-up value is a genuine number. -/
def JsProp.isNum : JsProp → Bool
  | JsProp.num _ => true
  | _ => false

/-- JS truthiness of a looked-up value: numbers are falsy exactly at
zero, every inherited prototype member is a function or an object
(truthy), `undefined` is falsy. -/
def JsProp.truthy : JsProp → Bool
  | JsProp.num n => n ≠ 0
  | JsProp.inherited _ => true
  | JsProp.undef => false

/-- The property names of `Object.prototype` (with the Annex B
accessors Node installs): a bracket read with any of these keys on a
plain object literal reaches the prototype chain. -/
def objectPrototypeProps : List String :=
  ["constructor", "hasOwnProperty", "isPrototypeOf", "propertyIsEnumerable",
   "toLocaleString", "toString", "valueOf", "__proto__",
   "__defineGetter__", "__defineSetter__", "__lookupGetter__", "__lookupSetter__"]

/-- `record[key]` on an object literal: the own entry when present,
else the inherited `Object.prototype` member when the key names one,
else `undefined`. -/
def jsRecordGet (entries : List (String × Nat)) (key : String) : JsProp :=
  match entries.lookup key with
  | some n => JsProp.num n
  | none => if key ∈ objectPrototypeProps then JsProp.inherited key else JsProp.undef

/-- JS `x || d` on a looked-up value against a numeric default. -/
def jsPropOr (p : JsProp) (d : Nat) : JsProp :=
  if p.truthy then p else JsProp.num d

/-- `getPriorityOrder(priority?: string)`.  `!priority` is true for an
absent argument and for the empty string; otherwise the value is
`PRIORITY_ORDER[priority.toLowerCase()] || 5`, which is the rank
number for the four own keys, `5` for an ordinary unknown key, and the
inherited truthy prototype member for a lowercased key equal to
`constructor` or `__proto__` (the only all-lowercase
`Object.prototype` names, hence the only ones a lowercased string can
reach). -/
def getPriorityOrder (priority : Option String) : JsProp :=
  match priority with
  | none => JsProp.num 5
  | some p =>
    if p = "" then JsProp.num 5
    else jsPropOr (jsRecordGet PRIORITY_ORDER (jsToLower p)) 5

/-- Modelled from the spec's words (the rank the spec and the claims
describe): Urgent 1, High 2, Normal 3, Low 4, and 5 for an absent,
empty or unrecognized priority.  The program's `getPriorityOrder`
refines this exactly on priorities whose lowercase avoids the
`Object.prototype` keys. -/
def specPriorityRank (priority : Option String) : Nat :=
  match priority with
  | none => 5
  | some p =>
    if p = "" then 5
    else ((PRIORITY_ORDER.lookup (jsToLower p)).getD 5)

/-- The priority string of an analyzed ticket as handed to
`getPriorityOrder` (`a.ticket.priority?.priority`). -/
def ticketPriorityString (t : AnalyzedTicket) : Option String :=
  t.ticket.priority.map (fun p => p.priority)

/-- A JS number that may be `NaN`. -/
inductive JsNum where
  | int (z : Int)
  | nan
deriving DecidableEq, Repr

/-- JS subtraction of two looked-up priority values: `ToNumber` of an
inherited function or object is `NaN`, and `NaN` propagates through
the subtraction. -/
def jsPropSub : JsProp → JsProp → JsNum
  | JsProp.num a, JsProp.num b => JsNum.int ((a : Int) - (b : Int))
  | _, _ => JsNum.nan

/-- The literal comparator passed to `Array.prototype.sort` in
`sortTickets`: priority rank ascending, then quality score descending,
then `fix` before `feature`, else 0.  The strict-inequality guard
`priorityA !== priorityB` is inequality of the looked-up values, and
the subtraction of ranks is `NaN` when either side is an inherited
prototype member. -/
def cmpTicketsRaw (a b : AnalyzedTicket) : JsNum :=
  let priorityA := getPriorityOrder (ticketPriorityString a)
  let priorityB := getPriorityOrder (ticketPriorityString b)
  if priorityA ≠ priorityB then jsPropSub priorityA priorityB
  else if a.analysis.qualityScore ≠ b.analysis.qualityScore then
    JsNum.int (b.analysis.qualityScore - a.analysis.qualityScore)
  else if a.analysis.complexityTag ≠ b.analysis.complexityTag then
    JsNum.int (if a.analysis.complexityTag = Complexity.fix then -1 else 1)
  else JsNum.int 0

/-- The comparator value as consumed by the sort: ECMAScript
`SortCompare` coerces a `NaN` comparator result to `+0`, treating such
a pair as equal. -/
def cmpTickets (a b : AnalyzedTicket) : Int :=
  match cmpTicketsRaw a b with
  | JsNum.int z => z
  | JsNum.nan => 0

/-- Modelled from the spec's words: the comparator the spec describes,
over `specPriorityRank`.  It agrees with the program's `cmpTickets`
whenever both priorities look up as numbers. -/
def specCmpTickets (a b : AnalyzedTicket) : Int :=
  let priorityA := specPriorityRank (ticketPriorityString a)
  let priorityB := specPriorityRank (ticketPriorityString b)
  if priorityA ≠ priorityB then (priorityA : Int) - (priorityB : Int)
  else if a.analysis.qualityScore ≠ b.analysis.qualityScore then
    b.analysis.qualityScore - a.analysis.qualityScore
  else if a.analysis.complexityTag ≠ b.analysis.complexityTag then
    (if a.analysis.complexityTag = Complexity.fix then -1 else 1)
  else 0

/-- `[...tickets].sort(cmp)`: ECMAScript `sort` with a consistent
comparator is a stable sort; it is embedded as the standard library's
stable merge sort under `cmp a b ≤ 0`. -/
def sortTickets (tickets : List AnalyzedTicket) : List AnalyzedTicket :=
  tickets.mergeSort (fun a b => cmpTickets a b ≤ 0)

/-- The sort key precedence of the formatter, stated at specification
level over the spec's rank: strictly smaller priority rank first; on a
priority tie, higher quality score first; on a further tie, `fix`
before `feature`; two items equal on all three keys are unordered
(either may come first). -/
def TicketLE (a b : AnalyzedTicket) : Prop :=
  specPriorityRank (ticketPriorityString a) < specPriorityRank (ticketPriorityString b) ∨
  (specPriorityRank (ticketPriorityString a) = specPriorityRank (ticketPriorityString b) ∧
    (b.analysis.qualityScore < a.analysis.qualityScore ∨
      (a.analysis.qualityScore = b.analysis.qualityScore ∧
        (a.analysis.complexityTag = b.analysis.complexityTag ∨
          a.analysis.complexityTag = Complexity.fix))))

instance : DecidablePred fun p : AnalyzedTicket × AnalyzedTicket => TicketLE p.1 p.2 :=
  fun _ => by unfold TicketLE; infer_instance

instance (a b : AnalyzedTicket) : Decidable (TicketLE a b) := by
  unfold TicketLE; infer_instance

/-- Equality on all three sort keys: same priority rank, same quality
score, same complexity tag. -/
def SameSortKey (a b : AnalyzedTicket) : Prop :=
  specPriorityRank (ticketPriorityString a) = specPriorityRank (ticketPriorityString b) ∧
  a.analysis.qualityScore = b.analysis.qualityScore ∧
  a.analysis.complexityTag = b.analysis.complexityTag

instance (a b : AnalyzedTicket) : Decidable (SameSortKey a b) := by
  unfold SameSortKey; infer_instance

/-- Cleanliness of one priority string: its lookup produces a genuine
number, i.e. its lowercase is not one of the two reachable
`Object.prototype` keys.  On tickets that are all clean the program's
comparator coincides with the spec's. -/
def CleanPriority (priority : Option String) : Prop :=
  (getPriorityOrder priority).isNum = true

instance (p : Option String) : Decidable (CleanPriority p) := by
  unfold CleanPriority; infer_instance

/-! ## Item analyzer (workflow-inlined `analyzeTicket`)

The generative-model call (`generateObject` with system prompt, user
prompt, output schema and temperature) is an external effect, embedded
as an oracle from the request to `Option TicketAnalysis`: `some`
models a structured result conforming to the schema, `none` models any
internal failure of the call — a model/network error, malformed model
output, or a timeout — all of which surface as the thrown exception
that the `catch` block converts into the fixed fallback analysis. -/

/-- A structured-output request to the generative model. -/
structure ModelRequest where
  system : String
  prompt : String
  temperature : ℚ
deriving DecidableEq

/-- The workflow's `ANALYSIS_SYSTEM_PROMPT`. -/
def ANALYSIS_SYSTEM_PROMPT : String :=
  "You are a senior software developer reviewing sprint tickets for quality and implementation planning.\nAssess quality 1-5, identify gaps, map to affected files, classify as fix/feature, provide implementation approach."

/-- JS `x || d` for an optional string: the default replaces an absent
value and the (falsy) empty string. -/
def jsOrElse (o : Option String) (d : String) : String :=
  match o with
  | none => d
  | some s => if s = "" then d else s

/-- The user prompt built by the workflow's `analyzeTicket`. -/
def buildUserPrompt (ticket : ClickUpTask) (codebaseMap : CodebaseMap) : String :=
  "Analyze this ticket:\nTitle: " ++ ticket.name
    ++ "\nDescription: " ++ jsOrElse ticket.description ("No description")
    ++ "\nStatus: " ++ ticket.status.status
    ++ "\nPriority: " ++ jsOrElse (ticket.priority.map (fun p => p.priority)) "Not set"
    ++ "\n\nCODEBASE:\nRoutes: "
    ++ String.intercalate ("\n")
        (codebaseMap.routes.map (fun r =>
          r.path ++ ": [" ++ String.intercalate (", ") r.files ++ "]"))
    ++ "\nComponents: " ++ String.intercalate (", ") (codebaseMap.components.take 50)
    ++ "\nActions: " ++ String.intercalate (", ") codebaseMap.actions
    ++ "\n\nReturn JSON: \x7b qualityScore, qualityGaps, affectedFiles, complexityTag, suggestedApproach \x7d"

/-- The full request `analyzeTicket` sends: the analysis system prompt,
the per-ticket user prompt, and temperature 0.3. -/
def mkAnalysisRequest (ticket : ClickUpTask) (codebaseMap : CodebaseMap) : ModelRequest :=
  { system := ANALYSIS_SYSTEM_PROMPT
    prompt := buildUserPrompt ticket codebaseMap
    temperature := 3 / 10 }

/-- The fixed fallback analysis of the workflow's `catch` branch. -/
def analysisFallback : TicketAnalysis :=
  { qualityScore := 3
    qualityGaps := ["Analysis failed - manual review needed"]
    affectedFiles := []
    complexityTag := Complexity.feature
    suggestedApproach := "Review ticket manually" }

/-- `analyzeTicket(ticket, codebaseMap)`: returns the model's object on
success and the fixed fallback on any failure; it never propagates an
exception to the caller (totality of this function is the embedded
form of that contract). -/
def analyzeTicket (model : ModelRequest → Option TicketAnalysis)
    (ticket : ClickUpTask) (codebaseMap : CodebaseMap) : TicketAnalysis :=
  match model (mkAnalysisRequest ticket codebaseMap) with
  | some object => object
  | none => analysisFallback

/-! ## Batch orchestrator (`analyzeTicketsStep`)

The step processes the task list in groups of `batchSize = 5`
(`tasks.slice(i, i + 5)` under `Promise.all`), appending each group's
results in the group's original order.  Concurrency inside a group has
no observable effect on the value produced — `Promise.all` reassembles
results in input order — so the embedding is sequential.  The
`modelCalls` field counts invocations of `analyzeTicket` (one
generative-model call each), making the no-calls-made property statable. -/

/-- The run of the analyze step: its results plus the number of
per-ticket analyzer (model) calls made. -/
structure AnalyzeRun where
  analyzedTickets : List AnalyzedTicket
  modelCalls : Nat
deriving DecidableEq

/-- `batchSize = 5`. -/
def batchSize : Nat := 5

/-- The `for (let i = 0; i < tasks.length; i += batchSize)` loop. -/
def analyzeBatches (model : ModelRequest → Option TicketAnalysis)
    (codebaseMap : CodebaseMap) (tasks : List ClickUpTask) : AnalyzeRun :=
  if h : tasks = [] then ⟨[], 0⟩
  else
    let batch := (tasks.take batchSize).map
      (fun ticket => AnalyzedTicket.mk ticket (analyzeTicket model ticket codebaseMap))
    let rest := analyzeBatches model codebaseMap (tasks.drop batchSize)
    ⟨batch ++ rest.analyzedTickets, batch.length + rest.modelCalls⟩
termination_by tasks.length
decreasing_by
  simp only [List.length_drop]
  have : 0 < tasks.length := List.length_pos.mpr h
  simp only [batchSize]
  omega

/-- `analyzeTicketsStep`: early return of an empty result for an empty
task list, otherwise the batch loop. -/
def analyzeTicketsStep (model : ModelRequest → Option TicketAnalysis)
    (codebaseMap : CodebaseMap) (tasks : List ClickUpTask) : AnalyzeRun :=
  if tasks.length = 0 then ⟨[], 0⟩
  else analyzeBatches model codebaseMap tasks

/-! ## Delivery client (`deliverWebhook`)

Each attempt's network outcome comes from an oracle indexed by the
attempt number.  The trace records the surfaced error (if any), the
number of attempts made, and the list of backoff delays actually slept
(in milliseconds, in order). -/

/-- The outcome of one webhook POST. -/
inductive AttemptOutcome where
  | netError (message : String)
  | response (status : Nat) (statusText : String)

/-- `response.ok`: status in the 2xx range (ECMAScript fetch: 200-299). -/
def responseOk (status : Nat) : Bool := 200 ≤ status && status < 300

/-- The error thrown by one delivery attempt, if any: a network error
rethrows itself, a non-2xx response throws the formatted message, a
2xx response throws nothing. -/
def attemptError : AttemptOutcome → Option String
  | AttemptOutcome.netError message => some message
  | AttemptOutcome.response status statusText =>
    if responseOk status then none
    else some ("Webhook delivery failed: " ++ toString status ++ " " ++ statusText)

/-- What one `deliverWebhook` call did. -/
structure DeliveryTrace where
  errorMsg : Option String
  attempts : Nat
  delaysMs : List Nat
deriving DecidableEq, Repr

/-- The retry loop of `deliverWebhook`.  `remaining` is the number of
loop iterations left (`retries - attempt`); the JS guard
`attempt < retries - 1` before sleeping is `attempt + 1 < retries`
(the two agree for every `retries ≥ 1`, and for `retries = 0` the loop
body never runs). -/
def deliverLoop (outcomes : Nat → AttemptOutcome) (retries : Nat) :
    Nat → Nat → Option String → DeliveryTrace
  | 0, attempt, lastError =>
    ⟨some (lastError.getD ("Webhook delivery failed after retries")), attempt, []⟩
  | remaining + 1, attempt, _ =>
    match attemptError (outcomes attempt) with
    | none => ⟨none, attempt + 1, []⟩
    | some e =>
      let rest := deliverLoop outcomes retries remaining (attempt + 1) (some e)
      if attempt + 1 < retries then
        ⟨rest.errorMsg, rest.attempts, 2 ^ attempt * 1000 :: rest.delaysMs⟩
      else rest

/-- `deliverWebhook(url, payload, secret?, retries = 3)`.  The url,
payload and signature header do not influence control flow, which is
what this trace captures; the signature computation itself is embedded
separately below. -/
def deliverWebhook (outcomes : Nat → AttemptOutcome) (retries : Nat) : DeliveryTrace :=
  deliverLoop outcomes retries retries 0 none

/-! ## HMAC-SHA-256 (`createHmac('sha256', secret)`)

`deliverWebhook` signs the serialized JSON body with Node's
`createHmac('sha256', secret).update(body).digest('hex')`; the webhook
receiver recomputes the same digest over the received raw body.  The
algorithm (FIPS 180-4 SHA-256 plus RFC 2104 HMAC) is embedded
executably over byte lists, with all 32-bit words as `Nat` reduced
modulo `2^32`. -/

/-- `2^32`, the word modulus. -/
def w32 : Nat := 4294967296

/-- Word addition modulo `2^32`. -/
def add32 (a b : Nat) : Nat := (a + b) % w32

/-- Right-rotation of a 32-bit word by `n` places. -/
def rotr32 (x n : Nat) : Nat := (x >>> n) ||| ((x <<< (32 - n)) % w32)

/-- Bitwise complement of a 32-bit word. -/
def not32 (x : Nat) : Nat := Nat.xor x 4294967295

/-- The eight working variables of the SHA-256 compression function. -/
structure Hash8 where
  a : Nat
  b : Nat
  c : Nat
  d : Nat
  e : Nat
  f : Nat
  g : Nat
  h : Nat
deriving DecidableEq, Repr

/-- The SHA-256 initial hash value H(0). -/
def sha256Init : Hash8 :=
  ⟨1779033703, 3144134277, 1013904242, 2773480762,
   1359893119, 2600822924, 528734635, 1541459225⟩

/-- The SHA-256 round constants K. -/
def sha256K : List Nat :=
  [1116352408, 1899447441, 3049323471, 3921009573,
   961987163, 1508970993, 2453635748, 2870763221,
   3624381080, 310598401, 607225278, 1426881987,
   1925078388, 2162078206, 2614888103, 3248222580,
   3835390401, 4022224774, 264347078, 604807628,
   770255983, 1249150122, 1555081692, 1996064986,
   2554220882, 2821834349, 2952996808, 3210313671,
   3336571891, 3584528711, 113926993, 338241895,
   666307205, 773529912, 1294757372, 1396182291,
   1695183700, 1986661051, 2177026350, 2456956037,
   2730485921, 2820302411, 3259730800, 3345764771,
   3516065817, 3600352804, 4094571909, 275423344,
   430227734, 506948616, 659060556, 883997877,
   958139571, 1322822218, 1537002063, 1747873779,
   1955562222, 2024104815, 2227730452, 2361852424,
   2428436474, 2756734187, 3204031479, 3329325298]

/-- Big-endian bytes of a `Nat` over `len` bytes. -/
def beBytes (len n : Nat) : List Nat :=
  (List.range len).map (fun i => n / 256 ^ (len - 1 - i) % 256)

/-- SHA-256 message padding: append `0x80`, zero bytes to 56 mod 64,
then the bit length over 8 big-endian bytes. -/
def sha256Pad (msg : List Nat) : List Nat :=
  msg ++ [128] ++ List.replicate ((64 - (msg.length + 9) % 64) % 64) 0
    ++ beBytes 8 (8 * msg.length)

/-- Split a byte list into 64-byte chunks. -/
def chunk64 (l : List Nat) : List (List Nat) :=
  if h : l = [] then []
  else l.take 64 :: chunk64 (l.drop 64)
termination_by l.length
decreasing_by
  simp only [List.length_drop]
  have : 0 < l.length := List.length_pos.mpr h
  omega

/-- The sixteen big-endian 32-bit words of one 64-byte block. -/
def blockWords (block : List Nat) : List Nat :=
  (List.range 16).map (fun i =>
    block.getD (4 * i) 0 * 16777216 + block.getD (4 * i + 1) 0 * 65536
      + block.getD (4 * i + 2) 0 * 256 + block.getD (4 * i + 3) 0)

/-- The small sigma-0 schedule function. -/
def ssig0 (x : Nat) : Nat := Nat.xor (rotr32 x 7) (Nat.xor (rotr32 x 18) (x >>> 3))

/-- The small sigma-1 schedule function. -/
def ssig1 (x : Nat) : Nat := Nat.xor (rotr32 x 17) (Nat.xor (rotr32 x 19) (x >>> 10))

/-- Extension of the sixteen block words to the 64-word message
schedule. -/
def sha256Schedule (block : List Nat) : List Nat :=
  (List.range 48).foldl
    (fun w _ =>
      w ++ [add32 (add32 (ssig1 (w.getD (w.length - 2) 0)) (w.getD (w.length - 7) 0))
              (add32 (ssig0 (w.getD (w.length - 15) 0)) (w.getD (w.length - 16) 0))])
    (blockWords block)

/-- One round of the SHA-256 compression function. -/
def sha256Round (w k : Nat) (s : Hash8) : Hash8 :=
  let bigS1 := Nat.xor (rotr32 s.e 6) (Nat.xor (rotr32 s.e 11) (rotr32 s.e 25))
  let ch := Nat.xor (Nat.land s.e s.f) (Nat.land (not32 s.e) s.g)
  let t1 := (s.h + bigS1 + ch + k + w) % w32
  let bigS0 := Nat.xor (rotr32 s.a 2) (Nat.xor (rotr32 s.a 13) (rotr32 s.a 22))
  let maj := Nat.xor (Nat.land s.a s.b) (Nat.xor (Nat.land s.a s.c) (Nat.land s.b s.c))
  let t2 := (bigS0 + maj) % w32
  ⟨(t1 + t2) % w32, s.a, s.b, s.c, (s.d + t1) % w32, s.e, s.f, s.g⟩

/-- Compression of one 64-byte block into the running hash. -/
def sha256Compress (hash : Hash8) (block : List Nat) : Hash8 :=
  let w := sha256Schedule block
  let s := (List.range 64).foldl
    (fun s i => sha256Round (w.getD i 0) (sha256K.getD i 0) s) hash
  ⟨add32 hash.a s.a, add32 hash.b s.b, add32 hash.c s.c, add32 hash.d s.d,
   add32 hash.e s.e, add32 hash.f s.f, add32 hash.g s.g, add32 hash.h s.h⟩

/-- SHA-256 of a byte list, as eight 32-bit words. -/
def sha256Words (msg : List Nat) : Hash8 :=
  (chunk64 (sha256Pad msg)).foldl sha256Compress sha256Init

/-- The 32 big-endian digest bytes of a hash state. -/
def hash8Bytes (s : Hash8) : List Nat :=
  beBytes 4 s.a ++ beBytes 4 s.b ++ beBytes 4 s.c ++ beBytes 4 s.d
    ++ beBytes 4 s.e ++ beBytes 4 s.f ++ beBytes 4 s.g ++ beBytes 4 s.h

/-- The digest as one natural number below `2^256` (the eight words in
big-endian order). -/
def hash8Nat (s : Hash8) : Nat :=
  ((((((s.a * w32 + s.b) * w32 + s.c) * w32 + s.d) * w32 + s.e) * w32 + s.f) * w32 + s.g) * w32 + s.h

/-- One lower-case hexadecimal digit. -/
def hexDigit (n : Nat) : Char :=
  Char.ofNat (if n < 10 then 48 + n else 87 + n)

/-- The 64-character lower-case hex rendering of a 256-bit digest
(`digest('hex')`). -/
def hex64 (n : Nat) : String :=
  String.mk ((List.range 64).map (fun i => hexDigit (n / 16 ^ (63 - i) % 16)))

/-- UTF-8 bytes of one character. -/
def utf8EncodeCharNat (c : Char) : List Nat :=
  let n := c.toNat
  if n < 128 then [n]
  else if n < 2048 then [192 + n / 64, 128 + n % 64]
  else if n < 65536 then [224 + n / 4096, 128 + n / 64 % 64, 128 + n % 64]
  else [240 + n / 262144, 128 + n / 4096 % 64, 128 + n / 64 % 64, 128 + n % 64]

/-- UTF-8 bytes of a string (Node buffers strings as UTF-8). -/
def utf8Bytes (s : String) : List Nat :=
  s.data.foldr (fun c acc => utf8EncodeCharNat c ++ acc) []

/-- RFC 2104 HMAC-SHA-256 over byte lists: a key longer than the
64-byte block is first hashed, the padded key is XORed with the inner
and outer pads, and two SHA-256 passes produce the tag. -/
def hmacSha256 (key msg : List Nat) : Hash8 :=
  let key0 := if 64 < key.length then hash8Bytes (sha256Words key) else key
  let keyPad := key0 ++ List.replicate (64 - key0.length) 0
  let ipadKey := keyPad.map (fun b => Nat.xor b 54)
  let opadKey := keyPad.map (fun b => Nat.xor b 92)
  sha256Words (opadKey ++ hash8Bytes (sha256Words (ipadKey ++ msg)))

/-- The signature string `deliverWebhook` puts in the
`X-Sprint-Pilot-Signature` header: `sha256=` followed by the hex HMAC
digest of the serialized body under the secret. -/
def computeSignature (secret body : String) : String :=
  "sha256=" ++ hex64 (hash8Nat (hmacSha256 (utf8Bytes secret) (utf8Bytes body)))

/-- The header attached by `deliverWebhook`: present exactly when a
secret is supplied. -/
def webhookSignatureHeader (secret : Option String) (body : String) : Option String :=
  secret.map (fun sec => computeSignature sec body)

/-- `verifySignature(payload, signature, secret)` of the webhook
receiver: string equality with the recomputed expected signature. -/
def verifySignature (payload signature secret : String) : Bool :=
  signature == computeSignature secret payload

/-- The receiver's authentication gate: with no configured secret every
request passes; with a secret, a missing header is rejected (401) and
a present header is checked by `verifySignature` over the raw body. -/
def receiverAccepts (secret : Option String) (header : Option String) (body : String) : Bool :=
  match secret with
  | none => true
  | some sec =>
    match header with
    | none => false
    | some signature => verifySignature body signature sec

/-! ## Task source client (`clickup-sync` tool and the workflow's
inlined `fetchClickUpTasks`)

A raw upstream task is a loosely-typed JSON object; the fields the
validation and coercion code inspects are modelled with JS-style
values where the code stringifies or tests truthiness.  Fields whose
malformation the embedding cannot represent (a well-typed-looking
field of the wrong inner shape) are out of scope; the claims concern
missing fields and non-string ids, which are representable. -/

/-- A JS value in the positions the coercion code inspects. -/
inductive JsVal where
  | str (s : String)
  | num (n : Int)
  | jsNull
  | undef
deriving DecidableEq, Repr

/-- JS `String(v)`. -/
def jsValToString : JsVal → String
  | JsVal.str s => s
  | JsVal.num n => toString n
  | JsVal.jsNull => "null"
  | JsVal.undef => "undefined"

/-- JS truthiness test (`!v` is `¬ jsTruthy v`). -/
def jsTruthy : JsVal → Bool
  | JsVal.str s => s ≠ ""
  | JsVal.num n => n ≠ 0
  | JsVal.jsNull => false
  | JsVal.undef => false

/-- One raw item of the upstream `tasks` array.  `status` is `none`
when the object has no `status` field and `some none` when the
`status` object lacks a string `status` member. -/
structure RawTask where
  id : JsVal
  name : JsVal
  description : Option String
  status : Option (Option String)
  assignees : Option (List Assignee)
  priority : Option TaskPriority
  tags : Option (List TaskTag)
  due_date : Option String
  custom_fields : Option (List Unit)
  url : Option String
deriving DecidableEq, Repr

/-- `ClickUpTaskSchema.parse`: strict validation requires a string id,
a string name and a `status` object carrying a string `status` field;
the remaining fields are optional. -/
def zodParse (r : RawTask) : Option ClickUpTask :=
  match r.id, r.name, r.status with
  | JsVal.str id, JsVal.str name, some (some st) =>
    some { id := id, name := name, description := r.description,
           status := ⟨st, none⟩, assignees := r.assignees,
           priority := r.priority, tags := r.tags, due_date := r.due_date,
           custom_fields := r.custom_fields, url := r.url }
  | _, _, _ => none

/-- JS `x || null` for an optional string (the empty string is falsy). -/
def jsOrNull (o : Option String) : Option String :=
  match o with
  | none => none
  | some s => if s = "" then none else some s

/-- The `catch` branch of the task mapping: the best-effort coerced
task (`String(t.id)`, `t.name || 'Untitled Task'`,
`t.status?.status || 'unknown'`, collections defaulted to empty). -/
def coerceTask (r : RawTask) : ClickUpTask :=
  { id := jsValToString r.id
    name := if jsTruthy r.name then jsValToString r.name else ("Untitled Task")
    description := jsOrNull r.description
    status := ⟨(match r.status with
                | some (some s) => if s = "" then ("unknown") else s
                | _ => "unknown"), none⟩
    assignees := some (r.assignees.getD [])
    priority := r.priority
    tags := some (r.tags.getD [])
    due_date := jsOrNull r.due_date
    custom_fields := some (r.custom_fields.getD [])
    url := some (r.url.getD ("")) }

/-- The per-item `try parse catch coerce` of the workflow's fetch:
strict parse first, coercion on failure; no item is ever dropped. -/
def parseOrCoerce (r : RawTask) : ClickUpTask :=
  (zodParse r).getD (coerceTask r)

/-- The whole-array mapping of the workflow's fetch. -/
def mapTasks (raws : List RawTask) : List ClickUpTask :=
  raws.map parseOrCoerce

/-- A task as a fetch implementation actually emits it.  The id and
name carry JS values because the `clickup-sync` tool's catch branch
passes `task.id` and `task.name` through unstringified (in violation
of its own declared output schema when they are not strings), while
the workflow's branch stringifies both. -/
structure FetchedTask where
  id : JsVal
  name : JsVal
  description : Option String
  status : TaskStatus
  assignees : Option (List Assignee)
  priority : Option TaskPriority
  tags : Option (List TaskTag)
  due_date : Option String
  custom_fields : Option (List Unit)
  url : Option String
deriving DecidableEq, Repr

/-- A well-typed task viewed as an emitted task (string id and name). -/
def toFetched (t : ClickUpTask) : FetchedTask :=
  { id := JsVal.str t.id, name := JsVal.str t.name, description := t.description,
    status := t.status, assignees := t.assignees, priority := t.priority,
    tags := t.tags, due_date := t.due_date, custom_fields := t.custom_fields,
    url := t.url }

/-- The `catch` branch of the `clickup-sync` tool's task mapping: the
same best-effort defaults as the workflow's, except that `task.id` is
passed through unchanged and `task.name || 'Untitled Task'` keeps a
truthy raw name unstringified. -/
def coerceTaskTool (r : RawTask) : FetchedTask :=
  { id := r.id
    name := if jsTruthy r.name then r.name else JsVal.str "Untitled Task"
    description := jsOrNull r.description
    status := ⟨(match r.status with
                | some (some s) => if s = "" then "unknown" else s
                | _ => "unknown"), none⟩
    assignees := some (r.assignees.getD [])
    priority := r.priority
    tags := some (r.tags.getD [])
    due_date := jsOrNull r.due_date
    custom_fields := some (r.custom_fields.getD [])
    url := some (r.url.getD "") }

/-- The per-item `try parse catch coerce` of the tool's fetch. -/
def toolParseOrCoerce (r : RawTask) : FetchedTask :=
  match zodParse r with
  | some t => toFetched t
  | none => coerceTaskTool r

/-- The whole-array mapping of the tool's fetch. -/
def mapTasksTool (raws : List RawTask) : List FetchedTask :=
  raws.map toolParseOrCoerce

/-- The outcome of the one outbound ClickUp request. -/
inductive FetchOutcome where
  | timeout
  | netError (message : String)
  | response (status : Nat) (statusText : String) (tasks : List RawTask)

/-- The error kinds the two fetch implementations surface.  Each kind
is a distinct thrown `Error`; `clickUpErrorMessage` below gives the
exact message, so distinctness of kinds is distinctness of what the
caller can observe. -/
inductive ClickUpFetchError where
  | timeout
  | rateLimited
  | authError
  | upstream (status : Nat) (statusText : String)
  | network (message : String)
  | aborted
deriving DecidableEq, Repr

/-- The exact `Error` message of each kind. -/
def clickUpErrorMessage : ClickUpFetchError → String
  | ClickUpFetchError.timeout => "ClickUp API request timed out after 30 seconds"
  | ClickUpFetchError.rateLimited => "ClickUp API rate limit exceeded. Please try again later."
  | ClickUpFetchError.authError => "Invalid ClickUp API token. Please check your CLICKUP_API_TOKEN environment variable."
  | ClickUpFetchError.upstream status statusText =>
    "ClickUp API error: " ++ toString status ++ " " ++ statusText
  | ClickUpFetchError.network message => message
  | ClickUpFetchError.aborted => "AbortError"

/-- The result of one fetch call.  The success payload carries emitted
tasks, so that the tool's unstringified ids are representable; the
workflow's strictly string-typed tasks embed via `toFetched`. -/
inductive FetchResult where
  | ok (tasks : List FetchedTask) (listId : String)
  | err (e : ClickUpFetchError)
deriving DecidableEq, Repr

/-- The `setTimeout(() => controller.abort(), 30000)` deadline both
fetch implementations install. -/
def clickupRequestTimeoutMs : Nat := 30000

/-- The `clickup-sync` tool (`src/tools/clickup-sync.ts`): one outbound
request; 429 and 401 mapped to their dedicated errors before the
generic non-2xx error; `AbortError` converted to the timeout error;
the task array mapped through the tool's own parse-or-coerce.  The
second component counts outbound requests issued (always one: the tool
never retries). -/
def clickupSyncTool (listId : String) (outcome : FetchOutcome) : FetchResult × Nat :=
  match outcome with
  | FetchOutcome.timeout => (FetchResult.err ClickUpFetchError.timeout, 1)
  | FetchOutcome.netError m => (FetchResult.err (ClickUpFetchError.network m), 1)
  | FetchOutcome.response status statusText tasks =>
    if responseOk status then (FetchResult.ok (mapTasksTool tasks) listId, 1)
    else if status = 429 then (FetchResult.err ClickUpFetchError.rateLimited, 1)
    else if status = 401 then (FetchResult.err ClickUpFetchError.authError, 1)
    else (FetchResult.err (ClickUpFetchError.upstream status statusText), 1)

/-- The workflow's inlined `fetchClickUpTasks`
(`src/agents/ticket-analyzer.ts`): same request, timeout and the
stringifying coercion, but no per-status handling — every non-2xx
response throws the generic `ClickUp API error` message, and an abort
propagates raw. -/
def fetchClickUpTasks (listId : String) (outcome : FetchOutcome) : FetchResult × Nat :=
  match outcome with
  | FetchOutcome.timeout => (FetchResult.err ClickUpFetchError.aborted, 1)
  | FetchOutcome.netError m => (FetchResult.err (ClickUpFetchError.network m), 1)
  | FetchOutcome.response status statusText tasks =>
    if responseOk status then (FetchResult.ok ((mapTasks tasks).map toFetched) listId, 1)
    else (FetchResult.err (ClickUpFetchError.upstream status statusText), 1)

/-! ## Pipeline controller (`formatAndDeliverStep`)

The step renders the report markdown inline (its own copy of the
formatting logic, claimed by its comment to match the
`sprint-formatter` tool) and then delivers the payload.  The wall clock
(`new Date().toISOString()`) is an oracle string `now`; for a valid ISO
timestamp `t`, `new Date(t).toISOString()` is `t` again, so re-parsing
is the identity here. -/

/-- `iso.split('T')[0]`: the calendar-date prefix of an ISO timestamp. -/
def isoDatePart (ts : String) : String :=
  String.mk (ts.data.takeWhile (fun c => c != 'T'))

/-- `complexityTag` as the literal it serializes to. -/
def complexityString : Complexity → String
  | Complexity.fix => "fix"
  | Complexity.feature => "feature"

/-- `complexityTag.toUpperCase()`. -/
def complexityUpper : Complexity → String
  | Complexity.fix => "FIX"
  | Complexity.feature => "FEATURE"

/-- JS `Number.prototype.toFixed(1)` for the mean quality score: the
rational `10 * sum / count` rounded half away from zero (the scores
are nonnegative in range), rendered with one decimal digit. -/
def avgQualityString (scores : List Int) : String :=
  match scores.length with
  | 0 => "0"
  | n =>
    let sum : Int := scores.foldl (fun acc s => acc + s) 0
    let scaled : Int := (20 * sum + (n : Int)) / (2 * (n : Int))
    toString (scaled / 10) ++ "." ++ toString (scaled % 10).natAbs

/-- The lines the workflow's inline formatter pushes for one ticket:
ordinal heading with complexity tag and title, id, status, quality,
optional affected files, suggested approach, and a separator.  Unlike
the `sprint-formatter` tool it omits the complexity / priority /
assignees / tags / due-date / agent / description / URL lines. -/
def inlineTicketLines (item : AnalyzedTicket) (index : Nat) : List String :=
  ["### " ++ toString (index + 1) ++ ". [" ++ complexityUpper item.analysis.complexityTag
      ++ "] " ++ item.ticket.name,
   "- **ClickUp ID**: " ++ item.ticket.id,
   "- **Status**: " ++ item.ticket.status.status,
   "- **Quality**: " ++ toString item.analysis.qualityScore ++ "/5"]
  ++ (if 0 < item.analysis.affectedFiles.length then
        ["- **Affected files**: " ++ String.intercalate (", ") item.analysis.affectedFiles]
      else [])
  ++ ["- **Suggested approach**: " ++ item.analysis.suggestedApproach, "", "---", ""]

/-- All lines of the workflow's inline report.  The ticket blocks are
emitted by `analyzedTickets.forEach` in the order of the analyzed list
itself: no sorting happens in this code path. -/
def inlineSprintLines (analyzedTickets : List AnalyzedTicket)
    (metadata : SprintMetadata) : List String :=
  let fixes := (analyzedTickets.filter
    (fun t => t.analysis.complexityTag == Complexity.fix)).length
  let features := (analyzedTickets.filter
    (fun t => t.analysis.complexityTag == Complexity.feature)).length
  ["# Sprint: " ++ isoDatePart metadata.syncTimestamp,
   "",
   "Synced from ClickUp List \"" ++ jsOrElse metadata.listName metadata.listId
     ++ "\" at " ++ metadata.syncTimestamp,
   "Total tickets: " ++ toString metadata.ticketCount,
   "",
   "**Summary:**",
   "- Fixes: " ++ toString fixes,
   "- Features: " ++ toString features,
   "- Average Quality Score: "
     ++ avgQualityString (analyzedTickets.map (fun t => t.analysis.qualityScore)) ++ "/5",
   "",
   "## Tickets (ordered by priority)",
   ""]
  ++ (analyzedTickets.mapIdx (fun index item => inlineTicketLines item index)).flatten

/-- The step's output record (`success`, `ticketCount`,
`webhookDelivered`, `message`). -/
structure StepResult where
  success : Bool
  ticketCount : Nat
  webhookDelivered : Bool
  message : String
deriving DecidableEq, Repr

/-- What one `formatAndDeliverStep` execution did: its result, whether
the formatter ran, the report lines built (empty when skipped), the
ticket list placed in the delivery payload, and how many delivery
attempts were made. -/
structure StepTrace where
  result : StepResult
  formatterRan : Bool
  reportLines : List String
  payloadTickets : List AnalyzedTicket
  deliveryAttempts : Nat
deriving DecidableEq, Repr

/-- `formatAndDeliverStep`: early success for an empty analyzed list
(no formatting, no delivery); otherwise builds the metadata and inline
markdown, posts the payload with up to 3 attempts, and reports
`success: true` either way, with `webhookDelivered` and the message
recording the delivery outcome. -/
def formatAndDeliverStep (outcomes : Nat → AttemptOutcome) (now : String)
    (analyzedTickets : List AnalyzedTicket) (listId : String) : StepTrace :=
  if analyzedTickets.length = 0 then
    ⟨⟨true, 0, false, "No tickets found in the list"⟩, false, [], [], 0⟩
  else
    let metadata : SprintMetadata :=
      ⟨now, analyzedTickets.length, listId, some ("Sprint " ++ isoDatePart now)⟩
    let lines := inlineSprintLines analyzedTickets metadata
    let delivery := deliverWebhook outcomes 3
    let webhookDelivered := delivery.errorMsg.isNone
    ⟨⟨true, analyzedTickets.length, webhookDelivered,
      if webhookDelivered then
        ("Successfully analyzed ") ++ toString analyzedTickets.length
          ++ " tickets and delivered to webhook"
      else
        ("Analyzed ") ++ toString analyzedTickets.length
          ++ " tickets but webhook delivery failed"⟩,
     true, lines, analyzedTickets, delivery.attempts⟩

/-- The pipeline after the fetch stage: the analyze step feeding the
format-and-deliver step (the workflow's `.then` chaining). -/
def runPipeline (model : ModelRequest → Option TicketAnalysis)
    (outcomes : Nat → AttemptOutcome) (now : String)
    (tasks : List ClickUpTask) (codebaseMap : CodebaseMap) (listId : String) : StepTrace :=
  formatAndDeliverStep outcomes now
    (analyzeTicketsStep model codebaseMap tasks).analyzedTickets listId

/-! ## Auxiliary predicates and concrete pipeline inputs -/

/-- All eight working variables below the word modulus. -/
def Hash8.Bounded (s : Hash8) : Prop :=
  s.a < w32 ∧ s.b < w32 ∧ s.c < w32 ∧ s.d < w32 ∧
  s.e < w32 ∧ s.f < w32 ∧ s.g < w32 ∧ s.h < w32

/-- An empty codebase map for the end-to-end scenario. -/
def c1CodebaseMap : CodebaseMap := ⟨[], [], [], none⟩

/-- A Low-priority fetched task for the end-to-end scenario. -/
def c1LowTask : ClickUpTask :=
  { id := "2", name := "Add analytics dashboard", status := ⟨"to do", none⟩,
    priority := some ⟨"4", "Low", "gray"⟩ }

/-- An Urgent-priority fetched task for the end-to-end scenario. -/
def c1UrgentTask : ClickUpTask :=
  { id := "1", name := "Fix login crash", status := ⟨"to do", none⟩,
    priority := some ⟨"1", "Urgent", "red"⟩ }

/-- The model's analysis of the Low task: a `feature`. -/
def c1LowAnalysis : TicketAnalysis := ⟨2, [], [], Complexity.feature, "Design the dashboard"⟩

/-- The model's analysis of the Urgent task: a `fix`. -/
def c1UrgentAnalysis : TicketAnalysis := ⟨4, [], [], Complexity.fix, "Patch the auth guard"⟩

/-- A model oracle answering each task's analysis prompt. -/
def c1Model : ModelRequest → Option TicketAnalysis :=
  fun r => if r.prompt = buildUserPrompt c1LowTask c1CodebaseMap
    then some c1LowAnalysis else some c1UrgentAnalysis

/-- The end-to-end run: two fetched items, the Low/feature one first,
an immediately-accepting destination. -/
def c1Trace : StepTrace :=
  runPipeline c1Model (fun _ => AttemptOutcome.response 200 ("OK"))
    "2026-02-13T10:00:00.000Z" [c1LowTask, c1UrgentTask] c1CodebaseMap ("list-1")

/-- A ticket whose priority string lowercases to the `constructor`
prototype key. -/
def c4ProtoTicket : AnalyzedTicket :=
  ⟨{ id := "1", name := "Prototype-keyed", status := ⟨"open", none⟩,
     priority := some ⟨"0", "Constructor", "gray"⟩ },
   ⟨3, [], [], Complexity.feature, "x"⟩⟩

/-- An ordinary Low-priority ticket. -/
def c4LowTicket : AnalyzedTicket :=
  ⟨{ id := "2", name := "Ordinary low", status := ⟨"open", none⟩,
     priority := some ⟨"4", "Low", "gray"⟩ },
   ⟨3, [], [], Complexity.feature, "y"⟩⟩

end SprintPilot

namespace SprintPilot

/-! ## Helper lemmas -/

/-- ASCII lowercasing is idempotent: a lowered character is outside the
upper-case latin range, so lowering it again changes nothing. -/
theorem charToLower_idem (c : Char) : c.toLower.toLower = c.toLower := by
  have hof : ∀ m : Nat, m.isValidChar → (Char.ofNat m).toNat = m := fun m hv => by
    rw [Char.ofNat, dif_pos hv]
    rfl
  by_cases h : c.toNat ≥ 65 ∧ c.toNat ≤ 90
  · have hv : (c.toNat + 32).isValidChar := Or.inl (by omega)
    have h2 : (Char.ofNat (c.toNat + 32)).toNat = c.toNat + 32 := hof _ hv
    have hc : c.toLower = Char.ofNat (c.toNat + 32) := by
      simp only [Char.toLower]
      rw [if_pos h]
    rw [hc]
    simp only [Char.toLower]
    rw [if_neg (by omega :
      ¬((Char.ofNat (c.toNat + 32)).toNat ≥ 65 ∧ (Char.ofNat (c.toNat + 32)).toNat ≤ 90))]
  · have hc : c.toLower = c := by
      simp only [Char.toLower]
      rw [if_neg h]
    rw [hc, hc]

/-- An ASCII-lowered character is never an upper-case latin letter. -/
theorem charToLower_not_upper (c : Char) :
    ¬(65 ≤ (Char.toLower c).toNat ∧ (Char.toLower c).toNat ≤ 90) := by
  have hof : ∀ m : Nat, m.isValidChar → (Char.ofNat m).toNat = m := fun m hv => by
    rw [Char.ofNat, dif_pos hv]
    rfl
  by_cases h : c.toNat ≥ 65 ∧ c.toNat ≤ 90
  · have hv : (c.toNat + 32).isValidChar := Or.inl (by omega)
    have h2 : (Char.ofNat (c.toNat + 32)).toNat = c.toNat + 32 := hof _ hv
    have hc : c.toLower = Char.ofNat (c.toNat + 32) := by
      simp only [Char.toLower]
      rw [if_pos h]
    rw [hc, h2]
    omega
  · have hc : c.toLower = c := by
      simp only [Char.toLower]
      rw [if_neg h]
    rw [hc]
    exact h

/-- Lowercasing a string is idempotent. -/
theorem jsToLower_idem (s : String) : jsToLower (jsToLower s) = jsToLower s := by
  unfold jsToLower
  have : (String.mk (s.data.map Char.toLower)).data = s.data.map Char.toLower := rfl
  rw [this, List.map_map]
  exact congrArg String.mk (List.map_congr_left (fun c _ => charToLower_idem c))

/-- Only the empty string lowers to the empty string. -/
theorem jsToLower_eq_empty {s : String} (h : jsToLower s = "") : s = "" := by
  have hd : s.data.map Char.toLower = ([] : List Char) := congrArg String.data h
  have : s.data = [] := List.map_eq_nil_iff.mp hd
  cases s
  simp_all

/-- A lowered string never equals a name containing an upper-case
latin letter (which is why only the all-lowercase `Object.prototype`
names are reachable from `getPriorityOrder`). -/
theorem jsToLower_ne_upperName (s t : String)
    (h : ∃ c ∈ t.data, 65 ≤ c.toNat ∧ c.toNat ≤ 90) : jsToLower s ≠ t := by
  intro heq
  obtain ⟨c, hc, hup⟩ := h
  rw [← heq] at hc
  have : c ∈ s.data.map Char.toLower := hc
  obtain ⟨c2, -, hc2⟩ := List.mem_map.mp this
  exact charToLower_not_upper c2 (hc2 ▸ hup)

/-- The own entries of `PRIORITY_ORDER` are the truthy numbers 1-4. -/
theorem lookup_PRIORITY_ORDER_ne_zero {k : String} {n : Nat}
    (h : PRIORITY_ORDER.lookup k = some n) : n ≠ 0 := by
  simp only [PRIORITY_ORDER, List.lookup] at h
  split at h
  · simp_all
    omega
  · split at h
    · simp_all
      omega
    · split at h
      · simp_all
        omega
      · split at h
        · simp_all
          omega
        · simp_all

/-- A priority whose lowercase is `constructor` or `__proto__` looks
up the inherited prototype member, which is truthy, so the `|| 5`
default never fires. -/
theorem getPriorityOrder_proto {s : String}
    (h : jsToLower s = "constructor" ∨ jsToLower s = "__proto__") :
    getPriorityOrder (some s) = JsProp.inherited (jsToLower s) := by
  have hne : s ≠ "" := by
    rintro rfl
    rcases h with h | h <;> exact absurd h (by decide)
  show (if s = "" then JsProp.num 5 else jsPropOr (jsRecordGet PRIORITY_ORDER (jsToLower s)) 5)
    = JsProp.inherited (jsToLower s)
  rw [if_neg hne]
  rcases h with h | h <;> rw [h] <;> decide

/-- Away from the two reachable prototype keys, the program's lookup
returns exactly the number the spec's rank function gives. -/
theorem getPriorityOrder_not_proto {s : String}
    (h1 : jsToLower s ≠ "constructor") (h2 : jsToLower s ≠ "__proto__") :
    getPriorityOrder (some s) = JsProp.num (specPriorityRank (some s)) := by
  by_cases he : s = ""
  · subst he
    decide
  · show (if s = "" then JsProp.num 5 else jsPropOr (jsRecordGet PRIORITY_ORDER (jsToLower s)) 5)
      = JsProp.num (if s = "" then 5 else (PRIORITY_ORDER.lookup (jsToLower s)).getD 5)
    rw [if_neg he, if_neg he]
    unfold jsRecordGet
    cases hk : PRIORITY_ORDER.lookup (jsToLower s) with
    | some n =>
      have hn : n ≠ 0 := lookup_PRIORITY_ORDER_ne_zero hk
      simp [jsPropOr, JsProp.truthy, hn]
    | none =>
      have hmem : jsToLower s ∉ objectPrototypeProps := by
        simp only [objectPrototypeProps, List.mem_cons, not_or]
        refine ⟨h1,
          jsToLower_ne_upperName s _ ⟨'O', by decide, by decide⟩,
          jsToLower_ne_upperName s _ ⟨'P', by decide, by decide⟩,
          jsToLower_ne_upperName s _ ⟨'I', by decide, by decide⟩,
          jsToLower_ne_upperName s _ ⟨'L', by decide, by decide⟩,
          jsToLower_ne_upperName s _ ⟨'S', by decide, by decide⟩,
          jsToLower_ne_upperName s _ ⟨'O', by decide, by decide⟩,
          h2,
          jsToLower_ne_upperName s _ ⟨'G', by decide, by decide⟩,
          jsToLower_ne_upperName s _ ⟨'S', by decide, by decide⟩,
          jsToLower_ne_upperName s _ ⟨'G', by decide, by decide⟩,
          ?_⟩
        simp
        exact jsToLower_ne_upperName s _ ⟨'S', by decide, by decide⟩
      rw [if_neg hmem]
      simp [jsPropOr, JsProp.truthy]

/-- A lookup that produced a genuine number produced the spec's rank. -/
theorem getPriorityOrder_of_isNum (p : Option String)
    (h : (getPriorityOrder p).isNum = true) :
    getPriorityOrder p = JsProp.num (specPriorityRank p) := by
  cases p with
  | none => rfl
  | some s =>
    by_cases h1 : jsToLower s = "constructor"
    · rw [getPriorityOrder_proto (Or.inl h1)] at h
      simp [JsProp.isNum] at h
    · by_cases h2 : jsToLower s = "__proto__"
      · rw [getPriorityOrder_proto (Or.inr h2)] at h
        simp [JsProp.isNum] at h
      · exact getPriorityOrder_not_proto h1 h2

end SprintPilot

namespace SprintPilot

/-- The spec comparator is nonpositive exactly when the
specification-level sort-key order holds. -/
theorem specCmpTickets_le_iff (a b : AnalyzedTicket) :
    specCmpTickets a b ≤ 0 ↔ TicketLE a b := by
  unfold specCmpTickets TicketLE
  by_cases hp : specPriorityRank (ticketPriorityString a) = specPriorityRank (ticketPriorityString b)
  · rw [if_neg (by simpa using hp)]
    by_cases hq : a.analysis.qualityScore = b.analysis.qualityScore
    · rw [if_neg (by simpa using hq)]
      by_cases hc : a.analysis.complexityTag = b.analysis.complexityTag
      · rw [if_neg (by simpa using hc)]
        simp [hp, hq, hc]
      · rw [if_pos (by simpa using hc)]
        cases ha : a.analysis.complexityTag <;> cases hb : b.analysis.complexityTag <;>
          simp_all <;> omega
    · rw [if_pos (by simpa using hq)]
      constructor
      · intro h
        exact Or.inr ⟨hp, Or.inl (by omega)⟩
      · rintro (h | ⟨-, h | ⟨h, -⟩⟩)
        · omega
        · omega
        · exact absurd h hq
  · rw [if_pos (by simpa using hp)]
    constructor
    · intro h
      have : specPriorityRank (ticketPriorityString a) < specPriorityRank (ticketPriorityString b) := by
        omega
      exact Or.inl this
    · rintro (h | ⟨h, -⟩)
      · omega
      · exact absurd h hp

/-- The sort-key order is transitive. -/
theorem ticketLE_trans {a b c : AnalyzedTicket} (h1 : TicketLE a b) (h2 : TicketLE b c) :
    TicketLE a c := by
  unfold TicketLE at *
  rcases h1 with h1 | ⟨e1, h1⟩
  · rcases h2 with h2 | ⟨e2, h2⟩
    · exact Or.inl (by omega)
    · exact Or.inl (by omega)
  · rcases h2 with h2 | ⟨e2, h2⟩
    · exact Or.inl (by omega)
    · refine Or.inr ⟨by omega, ?_⟩
      rcases h1 with h1 | ⟨f1, g1⟩
      · rcases h2 with h2 | ⟨f2, g2⟩
        · exact Or.inl (by omega)
        · exact Or.inl (by omega)
      · rcases h2 with h2 | ⟨f2, g2⟩
        · exact Or.inl (by omega)
        · refine Or.inr ⟨by omega, ?_⟩
          rcases g1 with g1 | g1
          · rcases g2 with g2 | g2
            · exact Or.inl (g1.trans g2)
            · exact Or.inr (g1.trans g2)
          · exact Or.inr g1

/-- The sort-key order is total. -/
theorem ticketLE_total (a b : AnalyzedTicket) : TicketLE a b ∨ TicketLE b a := by
  unfold TicketLE
  rcases lt_trichotomy (specPriorityRank (ticketPriorityString a))
      (specPriorityRank (ticketPriorityString b)) with h | h | h
  · exact Or.inl (Or.inl h)
  · rcases lt_trichotomy a.analysis.qualityScore b.analysis.qualityScore with hq | hq | hq
    · exact Or.inr (Or.inr ⟨h.symm, Or.inl hq⟩)
    · by_cases hc : a.analysis.complexityTag = b.analysis.complexityTag
      · exact Or.inl (Or.inr ⟨h, Or.inr ⟨hq, Or.inl hc⟩⟩)
      · cases ha : a.analysis.complexityTag
        · exact Or.inl (Or.inr ⟨h, Or.inr ⟨hq, Or.inr rfl⟩⟩)
        · cases hb : b.analysis.complexityTag
          · exact Or.inr (Or.inr ⟨h.symm, Or.inr ⟨hq.symm, Or.inr rfl⟩⟩)
          · exact absurd (ha.trans hb.symm) hc
    · exact Or.inl (Or.inr ⟨h, Or.inl hq⟩)
  · exact Or.inr (Or.inl h)

/-- On tickets with clean priorities the program comparator returns
a genuine number: the spec comparator value. -/
theorem cmpTicketsRaw_eq_spec (a b : AnalyzedTicket)
    (ha : CleanPriority (ticketPriorityString a)) (hb : CleanPriority (ticketPriorityString b)) :
    cmpTicketsRaw a b = JsNum.int (specCmpTickets a b) := by
  have ea := getPriorityOrder_of_isNum _ ha
  have eb := getPriorityOrder_of_isNum _ hb
  unfold cmpTicketsRaw specCmpTickets
  rw [ea, eb]
  dsimp only
  by_cases hp : specPriorityRank (ticketPriorityString a) = specPriorityRank (ticketPriorityString b)
  · by_cases hq : a.analysis.qualityScore = b.analysis.qualityScore
    · by_cases hc : a.analysis.complexityTag = b.analysis.complexityTag
      · simp [hp, hq, hc]
      · simp [hp, hq, hc]
    · simp [hp, hq]
  · simp [hp, jsPropSub]

/-- On tickets with clean priorities the sort-consumed comparator
value coincides with the spec comparator. -/
theorem cmpTickets_eq_spec (a b : AnalyzedTicket)
    (ha : CleanPriority (ticketPriorityString a)) (hb : CleanPriority (ticketPriorityString b)) :
    cmpTickets a b = specCmpTickets a b := by
  unfold cmpTickets
  rw [cmpTicketsRaw_eq_spec a b ha hb]

/-- Merging is unchanged when the two orderings agree on all pairs
drawn from the two lists. -/
theorem merge_congr {α : Type} {le le2 : α → α → Bool} :
    ∀ (xs ys : List α), (∀ a ∈ xs, ∀ b ∈ ys, le a b = le2 a b) →
      List.merge xs ys le = List.merge xs ys le2 := by
  intro xs
  induction xs with
  | nil =>
    intro ys h
    simp
  | cons x xs ihx =>
    intro ys
    induction ys with
    | nil =>
      intro h
      simp
    | cons y ys ihy =>
      intro h
      rw [List.merge, List.merge]
      rw [show le x y = le2 x y from h x (by simp) y (by simp)]
      by_cases hxy : le2 x y = true
      · rw [if_pos hxy, if_pos hxy]
        rw [ihx (y :: ys) (fun a ha b hb => h a (by simp [ha]) b hb)]
      · rw [if_neg hxy, if_neg hxy]
        rw [ihy (fun a ha b hb => h a ha b (by simp [hb]))]

/-- Merge sort is unchanged when the two orderings agree on all pairs
drawn from the list. -/
theorem mergeSort_congr {α : Type} {le le2 : α → α → Bool} :
    ∀ (l : List α), (∀ a ∈ l, ∀ b ∈ l, le a b = le2 a b) →
      l.mergeSort le = l.mergeSort le2 := by
  have H : ∀ (n : Nat) (t : List α), t.length = n →
      (∀ a ∈ t, ∀ b ∈ t, le a b = le2 a b) → t.mergeSort le = t.mergeSort le2 := by
    intro n
    induction n using Nat.strong_induction_on with
    | _ n ih =>
      intro t hn hagree
      match t with
      | [] => simp
      | [a] => simp
      | a :: b :: xs =>
        rw [List.mergeSort, List.mergeSort]
        have hfst := (List.splitInTwo ⟨a :: b :: xs, rfl⟩).1.2
        have hsnd := (List.splitInTwo ⟨a :: b :: xs, rfl⟩).2.2
        have hsub1 : ∀ c ∈ (List.splitInTwo ⟨a :: b :: xs, rfl⟩).1.1, c ∈ a :: b :: xs := by
          intro c hc
          rw [List.splitInTwo_fst] at hc
          exact List.take_subset _ _ hc
        have hsub2 : ∀ c ∈ (List.splitInTwo ⟨a :: b :: xs, rfl⟩).2.1, c ∈ a :: b :: xs := by
          intro c hc
          rw [List.splitInTwo_snd] at hc
          exact List.drop_subset _ _ hc
        have h1 : (List.splitInTwo ⟨a :: b :: xs, rfl⟩).1.1.mergeSort le
            = (List.splitInTwo ⟨a :: b :: xs, rfl⟩).1.1.mergeSort le2 := by
          refine ih _ ?_ _ hfst (fun c hc d hd => hagree c (hsub1 c hc) d (hsub1 d hd))
          simp only [List.length_cons] at hn ⊢
          omega
        have h2 : (List.splitInTwo ⟨a :: b :: xs, rfl⟩).2.1.mergeSort le
            = (List.splitInTwo ⟨a :: b :: xs, rfl⟩).2.1.mergeSort le2 := by
          refine ih _ ?_ _ hsnd (fun c hc d hd => hagree c (hsub2 c hc) d (hsub2 d hd))
          simp only [List.length_cons] at hn ⊢
          omega
        rw [h1, h2]
        refine merge_congr _ _ (fun c hc d hd => ?_)
        rw [List.mem_mergeSort] at hc hd
        exact hagree c (hsub1 c hc) d (hsub2 d hd)
  intro l hl
  exact H l.length l rfl hl

/-- On a list of tickets with clean priorities, `sortTickets` is the
stable merge sort under the spec comparator. -/
theorem sortTickets_eq_spec (l : List AnalyzedTicket)
    (hclean : ∀ t ∈ l, CleanPriority (ticketPriorityString t)) :
    sortTickets l = l.mergeSort (fun a b => decide (specCmpTickets a b ≤ 0)) := by
  unfold sortTickets
  refine mergeSort_congr l (fun a ha b hb => ?_)
  rw [cmpTickets_eq_spec a b (hclean a ha) (hclean b hb)]

end SprintPilot

namespace SprintPilot

/-- The batch loop is the one-analysis-per-task map, and makes exactly
one model call per task. -/
theorem analyzeBatches_eq (model : ModelRequest → Option TicketAnalysis)
    (cm : CodebaseMap) (tasks : List ClickUpTask) :
    analyzeBatches model cm tasks =
      ⟨tasks.map (fun t => ⟨t, analyzeTicket model t cm⟩), tasks.length⟩ := by
  have H : ∀ (n : Nat) (ts : List ClickUpTask), ts.length = n →
      analyzeBatches model cm ts =
        ⟨ts.map (fun t => ⟨t, analyzeTicket model t cm⟩), ts.length⟩ := by
    intro n
    induction n using Nat.strong_induction_on with
    | _ n ih =>
      intro ts hn
      rw [analyzeBatches]
      by_cases he : ts = []
      · subst he
        simp
      · rw [dif_neg he]
        have hlen : (ts.drop batchSize).length < n := by
          have := List.length_pos.mpr he
          simp only [List.length_drop, batchSize]
          omega
        rw [ih _ hlen _ rfl]
        refine congrArg₂ AnalyzeRun.mk ?_ ?_
        · rw [← List.map_append, List.take_append_drop]
        · simp [List.length_take, List.length_drop]
          omega
  exact H tasks.length tasks rfl

/-- The retry loop never makes more attempts than iterations remain. -/
theorem deliverLoop_attempts_le (outcomes : Nat → AttemptOutcome) (retries : Nat) :
    ∀ (remaining attempt : Nat) (lastError : Option String),
      (deliverLoop outcomes retries remaining attempt lastError).attempts ≤ attempt + remaining := by
  intro remaining
  induction remaining with
  | zero =>
    intro attempt lastError
    simp [deliverLoop]
  | succ r ih =>
    intro attempt lastError
    rw [deliverLoop]
    cases h : attemptError (outcomes attempt) with
    | none =>
      dsimp only
      omega
    | some e =>
      simp only
      split
      · have := ih (attempt + 1) (some e)
        simp only
        omega
      · have := ih (attempt + 1) (some e)
        omega

/-- The retry loop on a run whose first `j` attempts fail and whose
attempt `j` succeeds: success, `j + 1` attempts, and one backoff delay
of `2 ^ n` seconds after each failed attempt `n`. -/
theorem deliverLoop_success (outcomes : Nat → AttemptOutcome) (retries : Nat) :
    ∀ (j remaining attempt : Nat) (lastError : Option String),
      j < remaining → attempt + remaining = retries →
      (∀ i, i < j → (attemptError (outcomes (attempt + i))).isSome) →
      attemptError (outcomes (attempt + j)) = none →
      deliverLoop outcomes retries remaining attempt lastError =
        ⟨none, attempt + j + 1, (List.range' attempt j).map (fun n => 2 ^ n * 1000)⟩ := by
  intro j
  induction j with
  | zero =>
    intro remaining attempt lastError hj hsum hfail hok
    match remaining, hj with
    | r + 1, _ =>
      rw [deliverLoop]
      rw [show attempt + 0 = attempt from rfl] at hok
      rw [hok]
      simp
  | succ j ih =>
    intro remaining attempt lastError hj hsum hfail hok
    match remaining, hj with
    | r + 1, hj =>
      rw [deliverLoop]
      obtain ⟨e, he⟩ := Option.isSome_iff_exists.mp (hfail 0 (Nat.succ_pos j))
      rw [show attempt + 0 = attempt from rfl] at he
      rw [he]
      simp only
      have hlt : attempt + 1 < retries := by omega
      rw [if_pos hlt]
      have hrest := ih r (attempt + 1) (some e) (by omega) (by omega)
        (fun i hi => by
          have := hfail (i + 1) (by omega)
          simpa [Nat.add_assoc, Nat.add_comm 1 i] using this)
        (by
          have : attempt + 1 + j = attempt + (j + 1) := by omega
          rw [this]
          exact hok)
      rw [hrest]
      rw [List.range'_succ]
      simp only [List.map_cons]
      refine congrArg₂ (DeliveryTrace.mk none) ?_ rfl
      omega

/-- The retry loop on a run all of whose attempts fail: the last error
is surfaced, every iteration is used, and no delay follows the final
attempt. -/
theorem deliverLoop_allFail (outcomes : Nat → AttemptOutcome) (retries : Nat) :
    ∀ (remaining attempt : Nat) (lastError : Option String),
      1 ≤ remaining → attempt + remaining = retries →
      (∀ i, i < remaining → (attemptError (outcomes (attempt + i))).isSome) →
      deliverLoop outcomes retries remaining attempt lastError =
        ⟨attemptError (outcomes (retries - 1)), retries,
         (List.range' attempt (remaining - 1)).map (fun n => 2 ^ n * 1000)⟩ := by
  intro remaining
  induction remaining with
  | zero => omega
  | succ r ih =>
    intro attempt lastError hpos hsum hfail
    rw [deliverLoop]
    obtain ⟨e, he⟩ := Option.isSome_iff_exists.mp (hfail 0 (Nat.succ_pos r))
    rw [show attempt + 0 = attempt from rfl] at he
    rw [he]
    simp only
    cases r with
    | zero =>
      rw [if_neg (by omega)]
      rw [deliverLoop]
      have h1 : retries - 1 = attempt := by omega
      rw [h1, he]
      simp only [Option.getD_some]
      refine congrArg₂ (DeliveryTrace.mk (some e)) (by omega) rfl
    | succ r2 =>
      rw [if_pos (by omega)]
      have hrest := ih (attempt + 1) (some e) (by omega) (by omega)
        (fun i hi => by
          have := hfail (i + 1) (by omega)
          simpa [Nat.add_assoc, Nat.add_comm 1 i] using this)
      rw [hrest]
      simp only [Nat.succ_sub_one]
      rw [List.range'_succ]
      simp only [List.map_cons]

/-- Every hash state a compression produces is word-bounded. -/
theorem sha256Compress_bounded (hash : Hash8) (block : List Nat) :
    (sha256Compress hash block).Bounded := by
  unfold sha256Compress Hash8.Bounded add32 w32
  refine ⟨?_, ?_, ?_, ?_, ?_, ?_, ?_, ?_⟩ <;> simp <;> omega

/-- Folding the compression function preserves word boundedness. -/
theorem foldl_compress_bounded (blocks : List (List Nat)) :
    ∀ (init : Hash8), init.Bounded → (blocks.foldl sha256Compress init).Bounded := by
  induction blocks with
  | nil => exact fun init h => h
  | cons b bs ih => exact fun init _ => ih _ (sha256Compress_bounded _ _)

/-- Every SHA-256 digest is word-bounded. -/
theorem sha256Words_bounded (msg : List Nat) : (sha256Words msg).Bounded := by
  unfold sha256Words
  refine foldl_compress_bounded _ _ ?_
  unfold Hash8.Bounded sha256Init w32
  norm_num

/-- A word-bounded hash state packs into a natural number below
`2 ^ 256`. -/
theorem hash8Nat_lt (s : Hash8) (hb : s.Bounded) : hash8Nat s < 2 ^ 256 := by
  obtain ⟨ha, hb2, hc, hd, he, hf, hg, hh⟩ := hb
  unfold hash8Nat
  have step : ∀ acc x M : Nat, acc < M → x < w32 → acc * w32 + x < M * w32 := by
    intro acc x M h1 h2
    have h3 : acc * w32 + x < (acc + 1) * w32 := by
      rw [Nat.succ_mul]
      omega
    exact lt_of_lt_of_le h3 (Nat.mul_le_mul_right _ (by omega))
  have t1 : s.a * w32 + s.b < w32 * w32 := step _ _ _ ha hb2
  have t2 : (s.a * w32 + s.b) * w32 + s.c < w32 * w32 * w32 := step _ _ _ t1 hc
  have t3 : ((s.a * w32 + s.b) * w32 + s.c) * w32 + s.d < w32 * w32 * w32 * w32 :=
    step _ _ _ t2 hd
  have t4 : (((s.a * w32 + s.b) * w32 + s.c) * w32 + s.d) * w32 + s.e
      < w32 * w32 * w32 * w32 * w32 := step _ _ _ t3 he
  have t5 : ((((s.a * w32 + s.b) * w32 + s.c) * w32 + s.d) * w32 + s.e) * w32 + s.f
      < w32 * w32 * w32 * w32 * w32 * w32 := step _ _ _ t4 hf
  have t6 : (((((s.a * w32 + s.b) * w32 + s.c) * w32 + s.d) * w32 + s.e) * w32 + s.f) * w32 + s.g
      < w32 * w32 * w32 * w32 * w32 * w32 * w32 := step _ _ _ t5 hg
  have t7 : ((((((s.a * w32 + s.b) * w32 + s.c) * w32 + s.d) * w32 + s.e) * w32 + s.f) * w32 + s.g) * w32 + s.h
      < w32 * w32 * w32 * w32 * w32 * w32 * w32 * w32 := step _ _ _ t6 hh
  have hw : w32 * w32 * w32 * w32 * w32 * w32 * w32 * w32 = 2 ^ 256 := by
    unfold w32
    norm_num
  rw [hw] at t7
  exact t7

/-- Every HMAC tag, as a natural number, is below `2 ^ 256`. -/
theorem hmac_digest_lt (key msg : List Nat) : hash8Nat (hmacSha256 key msg) < 2 ^ 256 := by
  unfold hmacSha256
  exact hash8Nat_lt _ (sha256Words_bounded _)

/-! ## The claims -/

/-! ## The claims -/

/-- Claim C1: the end-to-end pipeline run on two fetched items — the
Low/feature item fetched before the Urgent/fix item, with an
immediately-accepting destination — does return `success = true`,
`ticketCount = 2` and `webhookDelivered = true`, but the report
delivered in the payload lists the Low/feature item first (heading
ordinal 1) and the Urgent/fix item second, because the inlined
formatter of `formatAndDeliverStep` never sorts; the formatter's own
comparator ranks the Urgent/fix item strictly first, so the claimed
ordering fails on this input. -/
theorem claim_C1_pipeline_report_order :
    c1Trace.result = ⟨true, 2, true, "Successfully analyzed 2 tickets and delivered to webhook"⟩ ∧
    c1Trace.payloadTickets = [⟨c1LowTask, c1LowAnalysis⟩, ⟨c1UrgentTask, c1UrgentAnalysis⟩] ∧
    c1Trace.reportLines.contains ("### 1. [FEATURE] Add analytics dashboard") = true ∧
    c1Trace.reportLines.contains ("### 2. [FIX] Fix login crash") = true ∧
    cmpTickets ⟨c1UrgentTask, c1UrgentAnalysis⟩ ⟨c1LowTask, c1LowAnalysis⟩ < 0 := by
  have hrun : c1Trace = formatAndDeliverStep (fun _ => AttemptOutcome.response 200 ("OK"))
      "2026-02-13T10:00:00.000Z"
      ([c1LowTask, c1UrgentTask].map
        (fun t => ⟨t, analyzeTicket c1Model t c1CodebaseMap⟩)) "list-1" := by
    unfold c1Trace runPipeline analyzeTicketsStep
    rw [if_neg (by decide)]
    rw [analyzeBatches_eq]
  rw [hrun]
  decide

/-- Claim C2: the batch orchestrator produces exactly one analyzed item
per input work item — the output is the input list mapped through the
analyzer, so lengths and order match — and the empty input produces
the empty output with zero model calls. -/
theorem claim_C2_batch_orchestrator (model : ModelRequest → Option TicketAnalysis)
    (cm : CodebaseMap) (tasks : List ClickUpTask) :
    (analyzeTicketsStep model cm tasks).analyzedTickets
        = tasks.map (fun t => ⟨t, analyzeTicket model t cm⟩) ∧
    (analyzeTicketsStep model cm tasks).analyzedTickets.length = tasks.length ∧
    (analyzeTicketsStep model cm tasks).modelCalls = tasks.length ∧
    analyzeTicketsStep model cm ([] : List ClickUpTask) = ⟨[], 0⟩ := by
  unfold analyzeTicketsStep
  by_cases h : tasks.length = 0
  · have : tasks = [] := List.length_eq_zero.mp h
    subst this
    exact ⟨rfl, rfl, rfl, rfl⟩
  · rw [if_neg h, analyzeBatches_eq]
    exact ⟨rfl, by simp, rfl, rfl⟩

/-- Claim C3: the item analyzer is total (never raises), returns the
model's object when the call succeeds, and on any internal failure
returns exactly the fixed fallback analysis: quality score 3, the
single manual-review quality gap, no affected files, complexity
`feature`, and the manual-review suggested approach. -/
theorem claim_C3_analyzer_fallback (model : ModelRequest → Option TicketAnalysis)
    (ticket : ClickUpTask) (cm : CodebaseMap) :
    (model (mkAnalysisRequest ticket cm) = none →
      analyzeTicket model ticket cm = analysisFallback ∧
      (analyzeTicket model ticket cm).qualityScore = 3 ∧
      (analyzeTicket model ticket cm).qualityGaps
          = ["Analysis failed - manual review needed"] ∧
      (analyzeTicket model ticket cm).affectedFiles = [] ∧
      (analyzeTicket model ticket cm).complexityTag = Complexity.feature ∧
      (analyzeTicket model ticket cm).suggestedApproach = "Review ticket manually") ∧
    (∀ object, model (mkAnalysisRequest ticket cm) = some object →
      analyzeTicket model ticket cm = object) := by
  constructor
  · intro h
    unfold analyzeTicket
    rw [h]
    exact ⟨rfl, rfl, rfl, rfl, rfl, rfl⟩
  · intro object h
    unfold analyzeTicket
    rw [h]

/-- Witness for C3: a concrete failing model call yields the fallback. -/
theorem claim_C3_analyzer_fallback_witness :
    analyzeTicket (fun _ => none)
      { id := "42", name := "Ticket", status := ⟨"open", none⟩ } ⟨[], [], [], none⟩
      = analysisFallback ∧
    (analyzeTicket (fun _ => none)
      { id := "42", name := "Ticket", status := ⟨"open", none⟩ }
      ⟨[], [], [], none⟩).qualityScore = 3 :=
  ⟨((claim_C3_analyzer_fallback (fun _ => none) _ _).1 rfl).1,
   ((claim_C3_analyzer_fallback (fun _ => none) _ _).1 rfl).2.1⟩

/-- Claim C4 (amended): on every ticket list whose priority strings,
lowercased, avoid the two reachable `Object.prototype` keys
(`constructor` and `__proto__`) — equivalently, every ticket's
priority lookup returns a genuine number — `sortTickets` permutes its
input into an order sorted by the strict precedence priority rank
ascending, then quality score descending, then `fix` before
`feature`; it is stable — a same-key pair keeps its input order — and
the ranks are Urgent 1, High 2, Normal 3, Low 4, absent 5. -/
theorem claim_C4_formatter_sort (l : List AnalyzedTicket)
    (hclean : ∀ t ∈ l, CleanPriority (ticketPriorityString t)) :
    (sortTickets l).Perm l ∧
    (sortTickets l).Pairwise TicketLE ∧
    (∀ a b : AnalyzedTicket, [a, b].Sublist l → SameSortKey a b →
      [a, b].Sublist (sortTickets l)) ∧
    specPriorityRank (some ("urgent")) = 1 ∧
    specPriorityRank (some ("high")) = 2 ∧
    specPriorityRank (some ("normal")) = 3 ∧
    specPriorityRank (some ("low")) = 4 ∧
    specPriorityRank none = 5 ∧
    getPriorityOrder (some ("urgent")) = JsProp.num 1 ∧
    getPriorityOrder none = JsProp.num 5 := by
  have htrans : ∀ a b c : AnalyzedTicket,
      decide (specCmpTickets a b ≤ 0) = true → decide (specCmpTickets b c ≤ 0) = true →
      decide (specCmpTickets a c ≤ 0) = true := by
    intro a b c h1 h2
    exact decide_eq_true ((specCmpTickets_le_iff a c).mpr
      (ticketLE_trans ((specCmpTickets_le_iff a b).mp (of_decide_eq_true h1))
        ((specCmpTickets_le_iff b c).mp (of_decide_eq_true h2))))
  have htotal : ∀ a b : AnalyzedTicket,
      (decide (specCmpTickets a b ≤ 0) || decide (specCmpTickets b a ≤ 0)) = true := by
    intro a b
    rcases ticketLE_total a b with h | h
    · simp [decide_eq_true ((specCmpTickets_le_iff a b).mpr h)]
    · simp [decide_eq_true ((specCmpTickets_le_iff b a).mpr h)]
  have hsort := sortTickets_eq_spec l hclean
  rw [hsort]
  refine ⟨List.mergeSort_perm l _, ?_, ?_, by decide, by decide, by decide, by decide, rfl,
    by decide, rfl⟩
  · have hs := List.sorted_mergeSort htrans htotal l
    exact hs.imp (fun h => (specCmpTickets_le_iff _ _).mp (of_decide_eq_true h))
  · intro a b hsub hkey
    refine List.pair_sublist_mergeSort htrans htotal ?_ hsub
    exact decide_eq_true ((specCmpTickets_le_iff a b).mpr
      (Or.inr ⟨hkey.1, Or.inr ⟨hkey.2.1, Or.inl hkey.2.2⟩⟩))

/-- Counterexample for C4 as stated: a ticket whose priority
lowercases to `constructor` does not rank 5 — its looked-up value is
the inherited prototype member, the comparator against an ordinary
Low ticket evaluates to `NaN`, the sort coerces that to 0 and keeps
the pair in input order, so the prototype-keyed ticket stays listed
before the Low ticket although the claimed rank order (5 after 4)
demands the opposite. -/
theorem claim_C4_proto_key_unsorted :
    sortTickets [c4ProtoTicket, c4LowTicket] = [c4ProtoTicket, c4LowTicket] ∧
    specPriorityRank (ticketPriorityString c4ProtoTicket) = 5 ∧
    specPriorityRank (ticketPriorityString c4LowTicket) = 4 ∧
    ¬ TicketLE c4ProtoTicket c4LowTicket ∧
    getPriorityOrder (ticketPriorityString c4ProtoTicket) = JsProp.inherited ("constructor") ∧
    cmpTicketsRaw c4ProtoTicket c4LowTicket = JsNum.nan ∧
    cmpTickets c4ProtoTicket c4LowTicket = 0 := by
  refine ⟨?_, by decide, by decide, by decide, by decide, by decide, by decide⟩
  unfold sortTickets
  apply List.mergeSort_of_sorted
  exact List.pairwise_pair.mpr (by decide)

end SprintPilot

namespace SprintPilot

/-- Witness for C4: the amended theorem at a concrete two-ticket
clean-priority list. -/
theorem claim_C4_formatter_sort_witness :
    [(⟨{ id := "1", name := "A", status := ⟨"open", none⟩,
         priority := some ⟨"2", "High", "blue"⟩ },
       ⟨4, [], [], Complexity.fix, "p"⟩⟩ : AnalyzedTicket),
     ⟨{ id := "2", name := "B", status := ⟨"open", none⟩,
         priority := some ⟨"2", "High", "blue"⟩ },
       ⟨4, [], [], Complexity.fix, "q"⟩⟩].Sublist
      (sortTickets
        [⟨{ id := "1", name := "A", status := ⟨"open", none⟩,
            priority := some ⟨"2", "High", "blue"⟩ },
          ⟨4, [], [], Complexity.fix, "p"⟩⟩,
         ⟨{ id := "2", name := "B", status := ⟨"open", none⟩,
            priority := some ⟨"2", "High", "blue"⟩ },
          ⟨4, [], [], Complexity.fix, "q"⟩⟩]) ∧
    specPriorityRank (some ("urgent")) = 1 :=
  ⟨(claim_C4_formatter_sort _ (by decide)).2.2.1 _ _ (List.Sublist.refl _) ⟨rfl, rfl, rfl⟩,
   (claim_C4_formatter_sort [] (by decide)).2.2.2.1⟩

/-- Claim C5: the delivery client makes at most `retries` attempts; a
run whose first `k` attempts fail and whose attempt `k` gets a 2xx
stops successfully after `k + 1` attempts, having slept `2 ^ n`
seconds after failed attempt `n`; a run all of whose attempts fail
makes exactly `retries` attempts, sleeps only after the non-final
attempts, and surfaces the last error. -/
theorem claim_C5_delivery_retry (outcomes : Nat → AttemptOutcome) (retries : Nat) :
    (deliverWebhook outcomes retries).attempts ≤ retries ∧
    (∀ k, k < retries → (∀ i, i < k → (attemptError (outcomes i)).isSome) →
      attemptError (outcomes k) = none →
      deliverWebhook outcomes retries =
        ⟨none, k + 1, (List.range k).map (fun n => 2 ^ n * 1000)⟩) ∧
    ((∀ i, i < retries → (attemptError (outcomes i)).isSome) → 1 ≤ retries →
      deliverWebhook outcomes retries =
        ⟨attemptError (outcomes (retries - 1)), retries,
         (List.range (retries - 1)).map (fun n => 2 ^ n * 1000)⟩) := by
  refine ⟨?_, ?_, ?_⟩
  · have := deliverLoop_attempts_le outcomes retries retries 0 none
    simpa [deliverWebhook] using this
  · intro k hk hfail hok
    have := deliverLoop_success outcomes retries k retries 0 none hk (by omega)
      (fun i hi => by simpa using hfail i hi) (by simpa using hok)
    simpa [deliverWebhook, List.range_eq_range'] using this
  · intro hfail hpos
    have := deliverLoop_allFail outcomes retries retries 0 none hpos (by omega)
      (fun i hi => by simpa using hfail i hi)
    simpa [deliverWebhook, List.range_eq_range'] using this

/-- Witness for C5: a destination failing twice then accepting gives
success with exactly 3 attempts and backoff delays of 1 and 2 seconds
(cumulative 3 seconds). -/
theorem claim_C5_delivery_retry_witness :
    deliverWebhook
      (fun n => if n < 2 then AttemptOutcome.netError ("connection refused")
        else AttemptOutcome.response 200 ("OK")) 3 = ⟨none, 3, [1000, 2000]⟩ ∧
    [1000, 2000].foldl (fun a b => a + b) 0 = 3000 := by
  constructor
  · have h := (claim_C5_delivery_retry
      (fun n => if n < 2 then AttemptOutcome.netError ("connection refused")
        else AttemptOutcome.response 200 ("OK")) 3).2.1 2 (by omega) (by decide) (by decide)
    exact h.trans (by decide)
  · decide

/-- Claim C6 (amended): signing a body with a secret yields the header
value `sha256=` plus the hex HMAC-SHA-256 tag; the receiver accepts a
header over the same body and secret exactly when it equals that
recomputed value — so the round trip accepts, an absent header with a
configured secret rejects, and a mutated body or different secret
rejects precisely when the recomputed tag differs. -/
theorem claim_C6_signature_round_trip (payload secret sig : String) :
    verifySignature payload (computeSignature secret payload) secret = true ∧
    (verifySignature payload sig secret = true ↔ sig = computeSignature secret payload) ∧
    webhookSignatureHeader (some secret) payload = some (computeSignature secret payload) ∧
    webhookSignatureHeader none payload = none ∧
    receiverAccepts (some secret) none payload = false ∧
    receiverAccepts (some secret) (some (computeSignature secret payload)) payload = true := by
  refine ⟨?_, ?_, rfl, rfl, rfl, ?_⟩
  · simp [verifySignature]
  · simp [verifySignature]
  · simp [receiverAccepts, verifySignature]

/-- Counterexample for C6 as stated: by pigeonhole on the infinite
secret space against the `2 ^ 256` possible tags, some other secret
produces the same tag on the same body, so verification with that
other secret accepts — universal rejection for every other secret is
mathematically false. -/
theorem claim_C6_other_secret_collision :
    ∃ payload secret secret2 : String, secret ≠ secret2 ∧
      verifySignature payload (computeSignature secret payload) secret2 = true := by
  obtain ⟨s1, s2, hne, heq⟩ := Finite.exists_ne_map_eq_of_infinite
    (fun s : String =>
      (⟨hash8Nat (hmacSha256 (utf8Bytes s) (utf8Bytes ("x"))),
        hmac_digest_lt _ _⟩ : Fin (2 ^ 256)))
  refine ⟨"x", s1, s2, hne, ?_⟩
  have hval : hash8Nat (hmacSha256 (utf8Bytes s1) (utf8Bytes ("x")))
      = hash8Nat (hmacSha256 (utf8Bytes s2) (utf8Bytes ("x"))) := congrArg Fin.val heq
  simp [verifySignature, computeSignature, hval]

/-- Claim C7 (amended): the `clickup-sync` tool applies the 30-second
deadline and the full error taxonomy — timeout as its own kind
distinct from a network error, 401 as the auth error, 429 as the
rate-limit error with exactly one request made (no auto-retry), and
any other non-2xx as the generic upstream error carrying the status —
while the workflow's inlined fetch maps every non-2xx, including 401
and 429, to the generic upstream error, and lets an abort propagate
raw. -/
theorem claim_C7_error_taxonomy (listId statusText : String) (tasks : List RawTask)
    (status : Nat) (message : String) :
    clickupRequestTimeoutMs = 30000 ∧
    clickupSyncTool listId FetchOutcome.timeout = (FetchResult.err ClickUpFetchError.timeout, 1) ∧
    ClickUpFetchError.timeout ≠ ClickUpFetchError.network message ∧
    clickupSyncTool listId (FetchOutcome.response 429 statusText tasks) =
      (FetchResult.err ClickUpFetchError.rateLimited, 1) ∧
    clickupSyncTool listId (FetchOutcome.response 401 statusText tasks) =
      (FetchResult.err ClickUpFetchError.authError, 1) ∧
    (responseOk status = false → status ≠ 429 → status ≠ 401 →
      clickupSyncTool listId (FetchOutcome.response status statusText tasks) =
        (FetchResult.err (ClickUpFetchError.upstream status statusText), 1)) ∧
    fetchClickUpTasks listId FetchOutcome.timeout =
      (FetchResult.err ClickUpFetchError.aborted, 1) ∧
    (responseOk status = false →
      fetchClickUpTasks listId (FetchOutcome.response status statusText tasks) =
        (FetchResult.err (ClickUpFetchError.upstream status statusText), 1)) := by
  refine ⟨rfl, rfl, by simp, ?_, ?_, ?_, rfl, ?_⟩
  · unfold clickupSyncTool
    dsimp only
    rw [if_neg (by decide), if_pos rfl]
  · unfold clickupSyncTool
    dsimp only
    rw [if_neg (by decide), if_neg (by decide), if_pos rfl]
  · intro hok h429 h401
    unfold clickupSyncTool
    dsimp only
    rw [hok]
    simp only [Bool.false_eq_true, if_false]
    rw [if_neg h429, if_neg h401]
  · intro hok
    unfold fetchClickUpTasks
    dsimp only
    rw [hok]
    simp

/-- Counterexample for C7 as stated: on the workflow's inlined fetch
path (cited by the claim), HTTP 401 is reported as the generic
upstream error with the generic message, not as the dedicated auth
error. -/
theorem claim_C7_workflow_401_generic :
    fetchClickUpTasks ("list-1") (FetchOutcome.response 401 ("Unauthorized") []) =
      (FetchResult.err (ClickUpFetchError.upstream 401 ("Unauthorized")), 1) ∧
    ClickUpFetchError.upstream 401 ("Unauthorized") ≠ ClickUpFetchError.authError ∧
    clickUpErrorMessage (ClickUpFetchError.upstream 401 ("Unauthorized")) =
      "ClickUp API error: 401 Unauthorized" :=
  ⟨by decide, by decide, by decide⟩

/-- Witness for C7: both implementations at concrete non-2xx statuses
outside the special cases surface the generic upstream error. -/
theorem claim_C7_error_taxonomy_witness :
    clickupSyncTool ("list-1") (FetchOutcome.response 500 ("Internal Server Error") []) =
      (FetchResult.err (ClickUpFetchError.upstream 500 ("Internal Server Error")), 1) ∧
    fetchClickUpTasks ("list-1") (FetchOutcome.response 503 ("Service Unavailable") []) =
      (FetchResult.err (ClickUpFetchError.upstream 503 ("Service Unavailable")), 1) := by
  constructor
  · exact (claim_C7_error_taxonomy ("list-1") ("Internal Server Error") [] 500 ("m")).2.2.2.2.2.1
      (by decide) (by decide) (by decide)
  · exact (claim_C7_error_taxonomy ("list-1") ("Service Unavailable") [] 503 ("m")).2.2.2.2.2.2.2
      (by decide)

/-- Claim C8 (amended): both fetch implementations map every raw item
to exactly one emitted task — no item is dropped and no malformed item
aborts the fetch; a strictly valid item parses as-is; an item failing
strict validation is coerced with the name defaulted to
`Untitled Task` when the raw name is falsy, status `unknown` when the
status object is missing, and empty collections for missing
assignees, tags and custom fields.  The workflow branch stringifies
the id and the name; the `clickup-sync` tool branch passes the raw
id, and a truthy raw name, through unstringified. -/
theorem claim_C8_coercion (raws : List RawTask) (r : RawTask) :
    (mapTasks raws).length = raws.length ∧
    (mapTasksTool raws).length = raws.length ∧
    (∀ t, zodParse r = some t → parseOrCoerce r = t ∧ toolParseOrCoerce r = toFetched t) ∧
    (zodParse r = none →
      parseOrCoerce r = coerceTask r ∧
      (parseOrCoerce r).id = jsValToString r.id ∧
      (jsTruthy r.name = false → (parseOrCoerce r).name = "Untitled Task") ∧
      (jsTruthy r.name = true → (parseOrCoerce r).name = jsValToString r.name) ∧
      (r.status = none → (parseOrCoerce r).status.status = "unknown") ∧
      (r.assignees = none → (parseOrCoerce r).assignees = some []) ∧
      (r.tags = none → (parseOrCoerce r).tags = some []) ∧
      (r.custom_fields = none → (parseOrCoerce r).custom_fields = some []) ∧
      toolParseOrCoerce r = coerceTaskTool r ∧
      (toolParseOrCoerce r).id = r.id ∧
      (jsTruthy r.name = false → (toolParseOrCoerce r).name = JsVal.str "Untitled Task") ∧
      (jsTruthy r.name = true → (toolParseOrCoerce r).name = r.name) ∧
      (r.status = none → (toolParseOrCoerce r).status.status = "unknown") ∧
      (r.assignees = none → (toolParseOrCoerce r).assignees = some []) ∧
      (r.tags = none → (toolParseOrCoerce r).tags = some []) ∧
      (r.custom_fields = none → (toolParseOrCoerce r).custom_fields = some [])) := by
  refine ⟨by simp [mapTasks], by simp [mapTasksTool], ?_, ?_⟩
  · intro t h
    constructor
    · unfold parseOrCoerce
      rw [h]
      rfl
    · unfold toolParseOrCoerce
      rw [h]
  · intro h
    have hp : parseOrCoerce r = coerceTask r := by
      unfold parseOrCoerce
      rw [h]
      rfl
    have hq : toolParseOrCoerce r = coerceTaskTool r := by
      unfold toolParseOrCoerce
      rw [h]
    refine ⟨hp, ?_, ?_, ?_, ?_, ?_, ?_, ?_, hq, ?_, ?_, ?_, ?_, ?_, ?_, ?_⟩
    · rw [hp]
      rfl
    · intro hn
      rw [hp]
      unfold coerceTask
      rw [hn]
      rfl
    · intro hn
      rw [hp]
      unfold coerceTask
      rw [hn]
      rfl
    · intro hs
      rw [hp]
      unfold coerceTask
      rw [hs]
    · intro ha
      rw [hp]
      unfold coerceTask
      rw [ha]
      rfl
    · intro ht
      rw [hp]
      unfold coerceTask
      rw [ht]
      rfl
    · intro hc
      rw [hp]
      unfold coerceTask
      rw [hc]
      rfl
    · rw [hq]
      rfl
    · intro hn
      rw [hq]
      unfold coerceTaskTool
      rw [hn]
      rfl
    · intro hn
      rw [hq]
      unfold coerceTaskTool
      rw [hn]
      rfl
    · intro hs
      rw [hq]
      unfold coerceTaskTool
      rw [hs]
    · intro ha
      rw [hq]
      unfold coerceTaskTool
      rw [ha]
      rfl
    · intro ht
      rw [hq]
      unfold coerceTaskTool
      rw [ht]
      rfl
    · intro hc
      rw [hq]
      unfold coerceTaskTool
      rw [hc]
      rfl

/-- Counterexample for C8 as stated: on a raw item with the numeric
id 42, the `clickup-sync` tool coercion (the code the claim cites)
emits the number 42 itself — not the stringified id — while the
workflow coercion does emit the string. -/
theorem claim_C8_tool_id_unstringified :
    (toolParseOrCoerce
      ⟨JsVal.num 42, JsVal.undef, none, none, none, none, none, none, none, none⟩).id
      = JsVal.num 42 ∧
    JsVal.num 42 ≠ JsVal.str ("42") ∧
    JsVal.num 42 ≠ JsVal.str (jsValToString (JsVal.num 42)) ∧
    (parseOrCoerce
      ⟨JsVal.num 42, JsVal.undef, none, none, none, none, none, none, none, none⟩).id = "42" := by
  decide

/-- Witness for C8: the amended theorem at a concrete raw item with a
numeric id, no name and no status. -/
theorem claim_C8_coercion_witness :
    parseOrCoerce
      ⟨JsVal.num 42, JsVal.undef, none, none, none, none, none, none, none, none⟩ =
      { id := "42", name := "Untitled Task", description := none,
        status := ⟨"unknown", none⟩, assignees := some [], priority := none,
        tags := some [], due_date := none, custom_fields := some [],
        url := some "" } ∧
    (toolParseOrCoerce
      ⟨JsVal.num 42, JsVal.undef, none, none, none, none, none, none, none, none⟩).id
      = JsVal.num 42 ∧
    (mapTasks [⟨JsVal.num 42, JsVal.undef, none, none, none, none, none,
      none, none, none⟩]).length = 1 := by
  refine ⟨?_, ?_, ?_⟩
  · have h := ((claim_C8_coercion []
      ⟨JsVal.num 42, JsVal.undef, none, none, none, none, none, none, none, none⟩).2.2.2
      (by decide)).1
    exact h.trans (by decide)
  · exact ((claim_C8_coercion []
      ⟨JsVal.num 42, JsVal.undef, none, none, none, none, none, none, none, none⟩).2.2.2
      (by decide)).2.2.2.2.2.2.2.2.2.1
  · exact (claim_C8_coercion
      [⟨JsVal.num 42, JsVal.undef, none, none, none, none, none, none, none, none⟩]
      ⟨JsVal.num 42, JsVal.undef, none, none, none, none, none, none, none, none⟩).1

/-- Claim C9: on an empty analyzed list the step short-circuits to an
early success — count 0, delivery skipped, the no-tickets message —
without running the formatter or the delivery client; on a delivery
failure after analysis the step still reports `success = true` with
the analyzed count and payload kept, `webhookDelivered = false`, and a
message distinct from the delivered-successfully one. -/
theorem claim_C9_controller_results (outcomes : Nat → AttemptOutcome) (now listId : String)
    (analyzedTickets : List AnalyzedTicket) :
    (analyzedTickets = [] →
      formatAndDeliverStep outcomes now analyzedTickets listId =
        ⟨⟨true, 0, false, "No tickets found in the list"⟩, false, [], [], 0⟩) ∧
    (analyzedTickets ≠ [] → (deliverWebhook outcomes 3).errorMsg.isSome →
      (formatAndDeliverStep outcomes now analyzedTickets listId).result =
        ⟨true, analyzedTickets.length, false,
         "Analyzed " ++ toString analyzedTickets.length
           ++ " tickets but webhook delivery failed"⟩ ∧
      (formatAndDeliverStep outcomes now analyzedTickets listId).formatterRan = true ∧
      (formatAndDeliverStep outcomes now analyzedTickets listId).payloadTickets
        = analyzedTickets) ∧
    (analyzedTickets ≠ [] → (deliverWebhook outcomes 3).errorMsg = none →
      (formatAndDeliverStep outcomes now analyzedTickets listId).result =
        ⟨true, analyzedTickets.length, true,
         "Successfully analyzed " ++ toString analyzedTickets.length
           ++ " tickets and delivered to webhook"⟩) ∧
    (∀ n : Nat,
      ("Analyzed " ++ toString n ++ " tickets but webhook delivery failed") ≠
        ("Successfully analyzed " ++ toString n ++ " tickets and delivered to webhook")) := by
  refine ⟨?_, ?_, ?_, ?_⟩
  · intro h
    subst h
    rfl
  · intro hne hfail
    have hlen : ¬analyzedTickets.length = 0 := fun hc => hne (List.length_eq_zero.mp hc)
    obtain ⟨e, he⟩ := Option.isSome_iff_exists.mp hfail
    unfold formatAndDeliverStep
    rw [if_neg hlen]
    simp [he]
  · intro hne hok
    have hlen : ¬analyzedTickets.length = 0 := fun hc => hne (List.length_eq_zero.mp hc)
    unfold formatAndDeliverStep
    rw [if_neg hlen]
    simp [hok]
  · intro n h
    have hlen := congrArg String.length h
    simp only [String.length_append] at hlen
    have e1 : ("Analyzed " : String).length = 9 := rfl
    have e2 : (" tickets but webhook delivery failed" : String).length = 36 := rfl
    have e3 : ("Successfully analyzed " : String).length = 22 := rfl
    have e4 : (" tickets and delivered to webhook" : String).length = 33 := rfl
    omega

/-- Witness for C9: the concrete empty-list short-circuit and a
concrete delivery failure after analyzing one ticket. -/
theorem claim_C9_controller_results_witness :
    formatAndDeliverStep (fun _ => AttemptOutcome.response 500 ("Internal Server Error"))
      "2026-02-13T10:00:00.000Z" [] "list-1" =
      ⟨⟨true, 0, false, "No tickets found in the list"⟩, false, [], [], 0⟩ ∧
    (formatAndDeliverStep (fun _ => AttemptOutcome.response 500 ("Internal Server Error"))
      "2026-02-13T10:00:00.000Z"
      [⟨{ id := "1", name := "T", status := ⟨"open", none⟩ },
        ⟨3, [], [], Complexity.fix, "x"⟩⟩] "list-1").result =
      ⟨true, 1, false, "Analyzed 1 tickets but webhook delivery failed"⟩ := by
  constructor
  · exact (claim_C9_controller_results _ _ _ _).1 rfl
  · have h := ((claim_C9_controller_results
      (fun _ => AttemptOutcome.response 500 ("Internal Server Error"))
      "2026-02-13T10:00:00.000Z" "list-1"
      [⟨{ id := "1", name := "T", status := ⟨"open", none⟩ },
        ⟨3, [], [], Complexity.fix, "x"⟩⟩]).2.1 (by decide) (by decide)).1
    exact h.trans (by decide)

/-- Claim C10 (amended): the formatter priority ranking is
case-insensitive — the rank of any string equals the rank of its
lowercase form — the three casings of Urgent all rank 1, an absent
priority ranks 5, and every string whose lowercase is outside the
four known keys ranks 5, except a string whose lowercase is
`constructor` or `__proto__`: those leak the inherited truthy
`Object.prototype` member through the lookup-or-5 default instead of
ranking 5. -/
theorem claim_C10_priority_rank (s : String) :
    getPriorityOrder (some s) = getPriorityOrder (some (jsToLower s)) ∧
    getPriorityOrder (some ("URGENT")) = JsProp.num 1 ∧
    getPriorityOrder (some ("Urgent")) = JsProp.num 1 ∧
    getPriorityOrder (some ("urgent")) = JsProp.num 1 ∧
    getPriorityOrder none = JsProp.num 5 ∧
    (jsToLower s ∉ (["urgent", "high", "normal", "low",
        "constructor", "__proto__"] : List String) →
      getPriorityOrder (some s) = JsProp.num 5) ∧
    (jsToLower s ∈ (["constructor", "__proto__"] : List String) →
      getPriorityOrder (some s) = JsProp.inherited (jsToLower s)) := by
  refine ⟨?_, by decide, by decide, by decide, rfl, ?_, ?_⟩
  · by_cases h : s = ""
    · subst h
      decide
    · have hne : jsToLower s ≠ "" := fun hc => h (jsToLower_eq_empty hc)
      show (if s = "" then JsProp.num 5
            else jsPropOr (jsRecordGet PRIORITY_ORDER (jsToLower s)) 5)
        = (if jsToLower s = "" then JsProp.num 5
            else jsPropOr (jsRecordGet PRIORITY_ORDER (jsToLower (jsToLower s))) 5)
      rw [if_neg h, if_neg hne, jsToLower_idem]
  · intro hmem
    simp only [List.mem_cons, List.mem_singleton, not_or] at hmem
    obtain ⟨h1, h2, h3, h4, h5, h6, -⟩ := hmem
    rw [getPriorityOrder_not_proto h5 h6]
    show JsProp.num (if s = "" then 5 else (PRIORITY_ORDER.lookup (jsToLower s)).getD 5)
      = JsProp.num 5
    by_cases h : s = ""
    · rw [if_pos h]
    · rw [if_neg h]
      have e1 : (jsToLower s == "urgent") = false := beq_eq_false_iff_ne.mpr h1
      have e2 : (jsToLower s == "high") = false := beq_eq_false_iff_ne.mpr h2
      have e3 : (jsToLower s == "normal") = false := beq_eq_false_iff_ne.mpr h3
      have e4 : (jsToLower s == "low") = false := beq_eq_false_iff_ne.mpr h4
      simp [PRIORITY_ORDER, List.lookup, e1, e2, e3, e4]
  · intro hmem
    simp only [List.mem_cons, List.mem_singleton] at hmem
    rcases hmem with h | h
    · exact getPriorityOrder_proto (Or.inl h)
    · rcases h with h | h
      · exact getPriorityOrder_proto (Or.inr h)
      · exact absurd h (by simp)

/-- Counterexample for C10 as stated: `Constructor` (and `__proto__`)
are outside the four known keys up to case, yet they do not rank 5 —
the lookup returns the inherited prototype member, which is truthy,
so the `|| 5` default never fires; the spec-level rank the claim
prescribes for them is 5. -/
theorem claim_C10_proto_key_leak :
    getPriorityOrder (some ("Constructor")) = JsProp.inherited ("constructor") ∧
    getPriorityOrder (some ("__proto__")) = JsProp.inherited ("__proto__") ∧
    JsProp.inherited ("constructor") ≠ JsProp.num 5 ∧
    (JsProp.inherited ("constructor")).truthy = true ∧
    specPriorityRank (some ("Constructor")) = 5 := by
  decide

/-- Witness for C10: the amended theorem at a concrete unknown
priority and a concrete upper-case key. -/
theorem claim_C10_priority_rank_witness :
    getPriorityOrder (some ("Server")) = JsProp.num 5 ∧
    getPriorityOrder (some ("URGENT")) = getPriorityOrder (some (jsToLower ("URGENT"))) :=
  ⟨(claim_C10_priority_rank ("Server")).2.2.2.2.2.1 (by decide),
   (claim_C10_priority_rank ("URGENT")).1⟩

end SprintPilot

namespace SprintPilot

end SprintPilot
